import Mathlib

/-!
# Teams speech integration: call-session relay and channel client

A shallow embedding of `src/src/audioBridge.js` (class `AudioBridge`) and
`src/src/websocketClient.js` (class `WebSocketClient`).

Modelling conventions.

* A JavaScript `Map` is an insertion-ordered list of key/value pairs.  The
  operations below assume but do not require that the keys are pairwise
  distinct (`MapWF`); separate lemmas show that every operation keeps them so.
* Objects that are shared by reference (the channel client held by a call
  session) live in a heap `World.clients`; a session stores an index into it.
  An index that resolves to nothing stands for a value such as `undefined`, on
  which a method call raises a `TypeError`.
* An `async` method becomes a function from the state before the call to the
  outcome (`Except JsError Unit`, a rejected promise being `Except.error`)
  paired with the state after the call.  The state is returned on failure too,
  because the mutations made before a `throw` persist.  Calls are modelled
  one at a time, without interleaving at `await` points.
* `new Date()` is the argument `now` (milliseconds), `uuidv4()` the argument
  `uuid`.  Logging has no effect on the modelled state.
* Audio payloads are byte buffers, given as the list of their bytes.
* Numbers are natural numbers; `Math.pow` and `Math.min` are exact on them.
* A JSON text is represented by the document it spells (`JsVal`), so that
  `JSON.parse` after `JSON.stringify` is the replacement of every buffer by
  the object of its `toJSON`; a received frame is either such a text or, when
  its text is not JSON, its bytes.
* The constructor of a transport is an argument of `connect`: the new
  transport, or nothing when the constructor raises.
* A log line has no effect on the state, but the conversion of an interpolated
  value to a string can raise (`JsVal.stringRaises`); this is modelled where
  the interpolated value comes from a received message.
-/

namespace TeamsSpeech

/-! ## JavaScript `Map` with string keys -/

/-- Lookup `Map.prototype.get`: the value stored under `k`, if any. -/
def mapGet {V : Type} : List (String × V) → String → Option V
  | [], _ => none
  | (k', v) :: rest, k => if k' = k then some v else mapGet rest k

/-- Update `Map.prototype.set`: an existing key keeps its position and gets the
new value, a new key is appended at the end. -/
def mapSet {V : Type} : List (String × V) → String → V → List (String × V)
  | [], k, v => [(k, v)]
  | (k', v') :: rest, k, v =>
    if k' = k then (k, v) :: rest else (k', v') :: mapSet rest k v

/-- Removal `Map.prototype.delete`: drops the entry stored under `k`. -/
def mapDelete {V : Type} : List (String × V) → String → List (String × V)
  | [], _ => []
  | (k', v') :: rest, k =>
    if k' = k then rest else (k', v') :: mapDelete rest k

/-- Keys `Map.prototype.keys`, in insertion order. -/
def mapKeys {V : Type} (m : List (String × V)) : List String :=
  m.map Prod.fst

/-- Well-formedness of a list that stands for a `Map`: no key occurs twice. -/
def MapWF {V : Type} (m : List (String × V)) : Prop :=
  (mapKeys m).Nodup

instance instDecidableMapWF {V : Type} (m : List (String × V)) : Decidable (MapWF m) :=
  inferInstanceAs (Decidable (mapKeys m).Nodup)

/-! ## Errors and wire messages -/

/-- The errors raised in the two modules. -/
inductive JsError where
  /-- Raised by `new Error('WebSocket not connected')` in `send`. -/
  | notConnected
  /-- Raised by `new Error('Call session not found: ...')` in `startAudioStream`. -/
  | sessionNotFound (callId : String)
  /-- An error raised by the transport's own `send`. -/
  | transportError
  /-- A method call on a value that is not an object. -/
  | typeError
  /-- Raised by `emit('error', value)` when no `error` listener is registered and
  the value is not an `Error` object. -/
  | unhandledError
  /-- Raised by the constructor of `WebSocketClient`:
  `new Error('WEBSOCKET_URL environment variable is required')`. -/
  | urlRequired
  /-- The error `new Error('Connection timeout')` of the connect-timeout timer. -/
  | connectionTimeout
  deriving DecidableEq, Repr

instance instDecidableEqExcept {ε α : Type} [DecidableEq ε] [DecidableEq α] :
    DecidableEq (Except ε α)
  | .ok a, .ok b =>
    if h : a = b then isTrue (by rw [h]) else isFalse (fun e => h (Except.ok.inj e))
  | .error a, .error b =>
    if h : a = b then isTrue (by rw [h]) else isFalse (fun e => h (Except.error.inj e))
  | .ok _, .error _ => isFalse (fun e => Except.noConfusion e)
  | .error _, .ok _ => isFalse (fun e => Except.noConfusion e)

/-- The `audioConfig` object of an initialization message. -/
structure AudioConfig where
  sampleRate : Nat
  channels : Nat
  bitDepth : Nat
  format : String
  deriving DecidableEq, Repr

/-- A message object handed to `send`.  A field that the object literal does
not have is `none`. -/
structure Message where
  type : String
  callId : Option String := none
  audioConfig : Option AudioConfig := none
  audioData : Option (List Nat) := none
  timestamp : Nat
  sequence : Option Nat := none
  duration : Option Int := none
  bytesProcessed : Option Nat := none
  deriving DecidableEq, Repr

/-! ## Values, JSON text and received frames -/

mutual
/-- A JavaScript value as far as messages need it: the JSON values and byte
buffers (`Buffer`).  Numbers are integers. -/
inductive JsVal where
  | null
  | bool (b : Bool)
  | num (n : Int)
  | str (s : String)
  | buffer (bytes : List Nat)
  | arr (items : JsList)
  | obj (fields : JsFields)
  deriving DecidableEq, Repr
/-- The items of an array. -/
inductive JsList where
  | nil
  | cons (head : JsVal) (tail : JsList)
  deriving DecidableEq, Repr
/-- The properties of an object, in insertion order. -/
inductive JsFields where
  | nil
  | cons (key : String) (value : JsVal) (rest : JsFields)
  deriving DecidableEq, Repr
end

/-- The array of the byte values of a buffer. -/
def bytesToList : List Nat → JsList
  | [] => .nil
  | b :: rest => .cons (.num b) (bytesToList rest)

/-- The object that `Buffer.prototype.toJSON` returns. -/
def bufferJSON (bytes : List Nat) : JsVal :=
  .obj (.cons "type" (.str "Buffer") (.cons "data" (.arr (bytesToList bytes)) .nil))

mutual
/-- The value that `JSON.parse (JSON.stringify v)` returns: `v` with every
buffer replaced by the object of its `toJSON`. -/
def JsVal.toJSON : JsVal → JsVal
  | .buffer bytes => bufferJSON bytes
  | .arr items => .arr items.toJSON
  | .obj fields => .obj fields.toJSON
  | .null => .null
  | .bool b => .bool b
  | .num n => .num n
  | .str s => .str s
/-- The companion of `JsVal.toJSON` on the items of an array. -/
def JsList.toJSON : JsList → JsList
  | .nil => .nil
  | .cons head tail => .cons head.toJSON tail.toJSON
/-- The companion of `JsVal.toJSON` on the properties of an object. -/
def JsFields.toJSON : JsFields → JsFields
  | .nil => .nil
  | .cons key value rest => .cons key value.toJSON rest.toJSON
end

/-- The value of the property `key`, if the object has it. -/
def JsFields.get? : JsFields → String → Option JsVal
  | .nil, _ => none
  | .cons k value rest, key => if k = key then some value else rest.get? key

mutual
/-- Whether the conversion of a value to a string, as in a template literal,
raises a type error.  A plain object converts through its `toString`: a
property of that name on the object itself is data, not a function, and hides
the inherited method, after which the inherited `valueOf` returns the object,
so the conversion raises.  An array converts its items one by one. -/
def JsVal.stringRaises : JsVal → Bool
  | .obj fields => (fields.get? "toString").isSome
  | .arr items => items.stringRaises
  | .null => false
  | .bool _ => false
  | .num _ => false
  | .str _ => false
  | .buffer _ => false
/-- The companion of `JsVal.stringRaises` on the items of an array. -/
def JsList.stringRaises : JsList → Bool
  | .nil => false
  | .cons head tail => head.stringRaises || tail.stringRaises
end

/-- The expression `message.key` on a value other than `null`: the property of
an object, and nothing on any other value. -/
def fieldOf (message : JsVal) (key : String) : Option JsVal :=
  match message with
  | .obj fields => fields.get? key
  | _ => none

/-- The interpolation of a property into a log line; an absent property is
written as `undefined`. -/
def interpolate (value : Option JsVal) : Except JsError Unit :=
  match value with
  | none => .ok ()
  | some v => if v.stringRaises then .error .typeError else .ok ()

/-- A frame received from the transport.  A frame whose text is valid JSON is
given by the document that the text spells; any other frame by its bytes. -/
inductive Frame where
  | text (doc : JsVal)
  | raw (data : List Nat)
  deriving DecidableEq, Repr

/-- The call `JSON.parse(data.toString())`; `none` stands for the syntax error. -/
def jsonParse : Frame → Option JsVal
  | .text doc => some doc
  | .raw _ => none

/-- The call `JSON.stringify(value)`, as the frame that carries the text. -/
def jsonStringify (value : JsVal) : Frame :=
  .text value.toJSON

/-- An optional property of an object literal. -/
def optField (key : String) (value : Option JsVal) (rest : JsFields) : JsFields :=
  match value with
  | none => rest
  | some v => .cons key v rest

/-- The object `audioConfig` as a value. -/
def AudioConfig.toJs (a : AudioConfig) : JsVal :=
  .obj (.cons "sampleRate" (.num a.sampleRate)
    (.cons "channels" (.num a.channels)
      (.cons "bitDepth" (.num a.bitDepth)
        (.cons "format" (.str a.format) .nil))))

/-- A message object as a value, with `audio` in the place of its `audioData`.
The text of `toISOString` is represented by the decimal milliseconds. -/
def Message.toJsWith (m : Message) (audio : Option JsVal) : JsVal :=
  .obj (.cons "type" (.str m.type)
    (optField "callId" (m.callId.map JsVal.str)
      (optField "audioConfig" (m.audioConfig.map AudioConfig.toJs)
        (optField "audioData" audio
          (.cons "timestamp" (.str (toString m.timestamp))
            (optField "sequence" (m.sequence.map (fun n => JsVal.num n))
              (optField "duration" (m.duration.map JsVal.num)
                (optField "bytesProcessed" (m.bytesProcessed.map (fun n => JsVal.num n))
                  .nil))))))))

/-- A message object as a value; its `audioData`, when present, is a buffer. -/
def Message.toJs (m : Message) : JsVal :=
  m.toJsWith (m.audioData.map JsVal.buffer)

/-- The text that `send` hands to the transport for the message object `m`. -/
def Message.wireText (m : Message) : Frame :=
  jsonStringify m.toJs

/-! ## The channel client (`WebSocketClient`) -/

/-- The transport object `this.ws` of the `ws` library, as far as the client
uses it: whether its `send` raises, and the frames written so far (oldest
first). -/
structure Transport where
  sendThrows : Bool := false
  written : List Message := []
  deriving DecidableEq, Repr

/-- Events emitted by the client to its subscribers. -/
inductive Emitted where
  | connected
  | disconnected
  | maxReconnectAttemptsReached
  | audioResponse (message : JsVal)
  | status (message : JsVal)
  | errorMessage (message : JsVal)
  | heartbeat (message : JsVal)
  | message (message : JsVal)
  | audioData (data : Frame)
  | error (error : JsError)
  deriving DecidableEq, Repr

/-- The event name passed to `emit`. -/
def Emitted.channel : Emitted → String
  | .connected => "connected"
  | .disconnected => "disconnected"
  | .maxReconnectAttemptsReached => "maxReconnectAttemptsReached"
  | .audioResponse _ => "audioResponse"
  | .status _ => "status"
  | .errorMessage _ => "error"
  | .heartbeat _ => "heartbeat"
  | .message _ => "message"
  | .audioData _ => "audioData"
  | .error _ => "error"

/-- The decoded message passed along with the event, if the event carries one. -/
def Emitted.payload : Emitted → Option JsVal
  | .audioResponse m => some m
  | .status m => some m
  | .errorMessage m => some m
  | .heartbeat m => some m
  | .message m => some m
  | _ => none

/-- The fields of a `WebSocketClient`.  `heartbeatInterval` and
`connectionTimeout` record whether the timer handle is set; `scheduled` lists
the delays of the reconnect timers set by `handleReconnect`, oldest first;
`emitted` lists the emitted events, oldest first.  `hasErrorListener` tells
whether a listener for the event `error` is registered on the client;
`transportsCreated` counts the transports built by `connect`,
`watchdogsStarted` the connect-timeout timers started, and `closeCodes` lists
the codes passed to the `close` method of a transport.  `url` and `protocol`
are the values read from the environment by the constructor. -/
structure WebSocketClient where
  ws : Option Transport := none
  isConnected : Bool := false
  reconnectAttempts : Nat := 0
  maxReconnectAttempts : Nat := 5
  reconnectDelay : Nat := 1000
  maxReconnectDelay : Nat := 30000
  heartbeatInterval : Bool := false
  connectionTimeout : Bool := false
  emitted : List Emitted := []
  scheduled : List Nat := []
  hasErrorListener : Bool := false
  transportsCreated : Nat := 0
  watchdogsStarted : Nat := 0
  closeCodes : List Nat := []
  url : String := "ws://localhost:8080"
  protocol : String := "ws"
  deriving DecidableEq, Repr

namespace WebSocketClient

/-- The state built by the constructor when the channel URL is configured. -/
def new : WebSocketClient := {}

/-- The handler of the transport event `open` in `setupEventHandlers`. -/
def onOpen (c : WebSocketClient) : WebSocketClient :=
  { c with
    isConnected := true
    reconnectAttempts := 0
    reconnectDelay := 1000
    connectionTimeout := false
    heartbeatInterval := true
    emitted := c.emitted ++ [Emitted.connected] }

/-- Method `handleReconnect`, up to and including the `setTimeout` call. -/
def handleReconnect (c : WebSocketClient) : WebSocketClient :=
  if c.reconnectAttempts ≥ c.maxReconnectAttempts then
    { c with emitted := c.emitted ++ [Emitted.maxReconnectAttemptsReached] }
  else
    let reconnectAttempts := c.reconnectAttempts + 1
    let delay := min (c.reconnectDelay * 2 ^ (reconnectAttempts - 1)) c.maxReconnectDelay
    { c with
      reconnectAttempts := reconnectAttempts
      scheduled := c.scheduled ++ [delay] }

/-- The handler of the transport event `close` in `setupEventHandlers`. -/
def onClose (c : WebSocketClient) : WebSocketClient :=
  handleReconnect
    { c with
      isConnected := false
      heartbeatInterval := false
      emitted := c.emitted ++ [Emitted.disconnected] }

/-- Method `send`. -/
def send (c : WebSocketClient) (message : Message) : Except JsError Unit × WebSocketClient :=
  if !c.isConnected then
    (.error .notConnected, c)
  else
    match c.ws with
    | none => (.error .typeError, c)
    | some t =>
      if t.sendThrows then
        (.error .transportError, c)
      else
        (.ok (), { c with ws := some { t with written := t.written ++ [message] } })

/-- The call `this.emit(...)`.  Without a listener for `error`, emitting on that
channel raises: the error itself when it is an `Error`, and an unhandled-error
exception for any other value.  Listeners are taken to return normally. -/
def emit (c : WebSocketClient) (e : Emitted) : Except JsError Unit × WebSocketClient :=
  let c1 := { c with emitted := c.emitted ++ [e] }
  match e with
  | .error err => if c.hasErrorListener then (.ok (), c1) else (.error err, c1)
  | .errorMessage _ => if c.hasErrorListener then (.ok (), c1) else (.error .unhandledError, c1)
  | _ => (.ok (), c1)

/-- The expression `message.type`: `none` when the property is absent; on
`null` the property access raises. -/
def messageType (message : JsVal) : Except JsError (Option JsVal) :=
  match message with
  | .null => .error .typeError
  | .obj fields => .ok (fields.get? "type")
  | _ => .ok none

/-- Method `handleAudioData`. -/
def handleAudioData (c : WebSocketClient) (data : Frame) : Except JsError Unit × WebSocketClient :=
  c.emit (.audioData data)

/-- Method `handleAudioResponse`: the log line converts `message.callId` to a
string before the `emit`. -/
def handleAudioResponse (c : WebSocketClient) (message : JsVal) :
    Except JsError Unit × WebSocketClient :=
  match interpolate (fieldOf message "callId") with
  | .error e => (.error e, c)
  | .ok () => c.emit (.audioResponse message)

/-- Method `handleStatusMessage`: the log line converts `message.status` to a
string before the `emit`. -/
def handleStatusMessage (c : WebSocketClient) (message : JsVal) :
    Except JsError Unit × WebSocketClient :=
  match interpolate (fieldOf message "status") with
  | .error e => (.error e, c)
  | .ok () => c.emit (.status message)

/-- Method `handleErrorMessage`: the log line converts `message.error` to a
string before the `emit`. -/
def handleErrorMessage (c : WebSocketClient) (message : JsVal) :
    Except JsError Unit × WebSocketClient :=
  match interpolate (fieldOf message "error") with
  | .error e => (.error e, c)
  | .ok () => c.emit (.errorMessage message)

/-- Method `handleHeartbeat`: its log line has no interpolation. -/
def handleHeartbeat (c : WebSocketClient) (message : JsVal) :
    Except JsError Unit × WebSocketClient :=
  c.emit (.heartbeat message)

/-- Method `handleMessage`: the `switch` on `message.type`, compared with `===`.
The first log line serializes the message with `JSON.stringify`, which does
not raise on a decoded value; the log line of the default branch converts
`message.type` to a string before the `emit`. -/
def handleMessage (c : WebSocketClient) (message : JsVal) :
    Except JsError Unit × WebSocketClient :=
  match messageType message with
  | .error e => (.error e, c)
  | .ok type =>
    if type = some (.str "audio_data") then c.handleAudioResponse message
    else if type = some (.str "status") then c.handleStatusMessage message
    else if type = some (.str "error") then c.handleErrorMessage message
    else if type = some (.str "heartbeat") then c.handleHeartbeat message
    else
      match interpolate type with
      | .error e => (.error e, c)
      | .ok () => c.emit (.message message)

/-- The property that the handler chosen for a message of type `type` writes
to its log line: `callId` for `audio_data`, `status` for `status`, `error` for
`error`, nothing for `heartbeat`, and the type itself in the default branch. -/
def loggedField (message : JsVal) (type : Option JsVal) : Option JsVal :=
  if type = some (.str "audio_data") then fieldOf message "callId"
  else if type = some (.str "status") then fieldOf message "status"
  else if type = some (.str "error") then fieldOf message "error"
  else if type = some (.str "heartbeat") then none
  else type

/-- The handler of the transport event `message` in `setupEventHandlers`: a
failure of the parse, or of `handleMessage`, is caught and the frame is passed
to `handleAudioData`. -/
def onMessage (c : WebSocketClient) (data : Frame) : Except JsError Unit × WebSocketClient :=
  match jsonParse data with
  | none => c.handleAudioData data
  | some message =>
    match c.handleMessage message with
    | (.ok (), c1) => (.ok (), c1)
    | (.error _, c1) => c1.handleAudioData data

/-- Method `clearHeartbeat`. -/
def clearHeartbeat (c : WebSocketClient) : WebSocketClient :=
  if c.heartbeatInterval then { c with heartbeatInterval := false } else c

/-- Method `clearConnectionTimeout`. -/
def clearConnectionTimeout (c : WebSocketClient) : WebSocketClient :=
  if c.connectionTimeout then { c with connectionTimeout := false } else c

/-- Method `startConnectionTimeout`: a new timer is started and its handle
stored, whatever the handle held before. -/
def startConnectionTimeout (c : WebSocketClient) : WebSocketClient :=
  { c with connectionTimeout := true, watchdogsStarted := c.watchdogsStarted + 1 }

/-- Method `handleConnectionError`. -/
def handleConnectionError (c : WebSocketClient) (error : JsError) :
    Except JsError Unit × WebSocketClient :=
  emit (clearConnectionTimeout (clearHeartbeat { c with isConnected := false })) (.error error)

/-- Method `connect`.  `created` is the outcome of `new WebSocket(...)`: the
new transport, or `none` when the constructor raises. -/
def connect (c : WebSocketClient) (created : Option Transport) :
    Except JsError Unit × WebSocketClient :=
  if c.isConnected then
    (.ok (), c)
  else
    match created with
    | none => c.handleConnectionError .transportError
    | some t =>
      (.ok (),
        startConnectionTimeout
          { c with ws := some t, transportsCreated := c.transportsCreated + 1 })

/-- The callback of the timer set by `handleReconnect`: `connect`, and
`handleReconnect` again when `connect` fails. -/
def onReconnectTimer (c : WebSocketClient) (created : Option Transport) : WebSocketClient :=
  match c.connect created with
  | (.ok (), c1) => c1
  | (.error _, c1) => c1.handleReconnect

/-- Method `disconnect`. -/
def disconnect (c : WebSocketClient) : Except JsError Unit × WebSocketClient :=
  let c1 := clearConnectionTimeout (clearHeartbeat c)
  let c2 :=
    match c1.ws with
    | some _ => { c1 with ws := none, closeCodes := c1.closeCodes ++ [1000] }
    | none => c1
  (.ok (), { c2 with isConnected := false, emitted := c2.emitted ++ [Emitted.disconnected] })

/-- The constructor.  `url` is `process.env.WEBSOCKET_URL` and `protocol` is
`process.env.WEBSOCKET_PROTOCOL`; an unset variable is `none`, and the empty
string is falsy like an unset variable. -/
def construct (url protocol : Option String) : Except JsError WebSocketClient :=
  match url with
  | none => .error .urlRequired
  | some u =>
    if u = "" then
      .error .urlRequired
    else
      .ok
        { ws := none
          isConnected := false
          reconnectAttempts := 0
          maxReconnectAttempts := 5
          reconnectDelay := 1000
          maxReconnectDelay := 30000
          heartbeatInterval := false
          connectionTimeout := false
          url := u
          protocol :=
            match protocol with
            | none => "ws"
            | some p => if p = "" then "ws" else p }

/-- The object returned by `getConnectionStatus`. -/
structure ConnectionStatus where
  isConnected : Bool
  url : String
  reconnectAttempts : Nat
  maxReconnectAttempts : Nat
  deriving DecidableEq, Repr

/-- Method `getConnectionStatus`, with the client state after the call. -/
def getConnectionStatus (c : WebSocketClient) : ConnectionStatus × WebSocketClient :=
  ({ isConnected := c.isConnected
     url := c.url
     reconnectAttempts := c.reconnectAttempts
     maxReconnectAttempts := c.maxReconnectAttempts }, c)

/-- The handler of the transport event `error` in `setupEventHandlers`. -/
def onError (c : WebSocketClient) (error : JsError) : Except JsError Unit × WebSocketClient :=
  c.handleConnectionError error

/-- The callback of the timer set by `startConnectionTimeout`. -/
def onConnectionTimeout (c : WebSocketClient) : Except JsError Unit × WebSocketClient :=
  if !c.isConnected then
    c.handleConnectionError .connectionTimeout
  else
    (.ok (), c)

/-- The names of the data properties that the constructor assigns on the
instance itself. -/
def ownPropertyNames : List String :=
  ["ws", "isConnected", "reconnectAttempts", "maxReconnectAttempts", "reconnectDelay",
   "maxReconnectDelay", "heartbeatInterval", "connectionTimeout", "url", "protocol"]

/-- The body of the method `isConnected` declared in the class. -/
def isConnectedMethod (c : WebSocketClient) : Bool :=
  c.isConnected

/-- The call expression `client.isConnected()`.  Property lookup finds a
property of the instance before a method of the class; the instance property
`isConnected` always holds a boolean, and calling a boolean raises. -/
def callIsConnected (c : WebSocketClient) : Except JsError Bool :=
  if "isConnected" ∈ ownPropertyNames then
    .error .typeError
  else
    .ok c.isConnectedMethod

/-- The field `websocket` computed by the handler of `GET /api/health` in
`index.js`: `websocketClient.isConnected() ? 'connected' : 'disconnected'`. -/
def healthWebsocketField (c : WebSocketClient) : Except JsError String :=
  match c.callIsConnected with
  | .error e => .error e
  | .ok true => .ok "connected"
  | .ok false => .ok "disconnected"

/-- The events that act on a client between its construction and its disposal:
the transport reports `open` or `close`, `handleReconnect` is called directly
(as the reconnect timer does when `connect` fails), or a message is sent. -/
inductive ClientEvent where
  | opened
  | closed
  | reconnect
  | send (message : Message)
  deriving DecidableEq, Repr

/-- The effect of one event on the client. -/
def step (c : WebSocketClient) : ClientEvent → WebSocketClient
  | .opened => c.onOpen
  | .closed => c.onClose
  | .reconnect => c.handleReconnect
  | .send message => (c.send message).2

/-- The effect of a sequence of events, in order. -/
def run (c : WebSocketClient) (events : List ClientEvent) : WebSocketClient :=
  events.foldl step c

end WebSocketClient

/-! ## The call-session relay (`AudioBridge`) -/

/-- A reference to a channel client in the heap. -/
abbrev ClientRef := Nat

/-- The object stored in `callSession.audioStream` by `startAudioStream`. -/
structure AudioStream where
  id : String
  startTime : Nat
  bytesProcessed : Nat
  deriving DecidableEq, Repr

/-- The object `callSession` built by `initializeCall`. -/
structure CallSession where
  id : String
  websocketClient : ClientRef
  startTime : Nat
  audioBuffer : List (List Nat) := []
  isActive : Bool := true
  audioStream : Option AudioStream := none
  deriving DecidableEq, Repr

/-- The fields of an `AudioBridge`. -/
structure AudioBridge where
  activeCalls : List (String × CallSession) := []
  audioBuffers : List (String × List (List Nat)) := []
  sampleRate : Nat := 16000
  channels : Nat := 1
  bitDepth : Nat := 16
  deriving DecidableEq, Repr

/-- The relay together with the heap of channel clients its sessions refer to. -/
structure World where
  bridge : AudioBridge := {}
  clients : List WebSocketClient := []
  deriving DecidableEq, Repr

/-- The object returned by `getCallStats`. -/
structure CallStats where
  id : String
  startTime : Nat
  isActive : Bool
  duration : Int
  bytesProcessed : Nat
  deriving DecidableEq, Repr

/-- The call `ref.send(message)` on the client that `ref` points to. -/
def sendVia (w : World) (ref : ClientRef) (message : Message) : Except JsError Unit × World :=
  match w.clients[ref]? with
  | none => (.error .typeError, w)
  | some c =>
    let r := c.send message
    (r.1, { w with clients := w.clients.set ref r.2 })

/-- The expression `callSession.audioStream?.bytesProcessed || 0`. -/
def streamBytes (s : CallSession) : Nat :=
  match s.audioStream with
  | some a => a.bytesProcessed
  | none => 0

/-- Method `initializeCall`. -/
def initializeCall (w : World) (callId : String) (websocketClient : ClientRef) (now : Nat) :
    Except JsError Unit × World :=
  let callSession : CallSession :=
    { id := callId
      websocketClient := websocketClient
      startTime := now
      audioBuffer := []
      isActive := true
      audioStream := none }
  (.ok (),
    { w with
      bridge :=
        { w.bridge with
          activeCalls := mapSet w.bridge.activeCalls callId callSession
          audioBuffers := mapSet w.bridge.audioBuffers callId [] } })

/-- Method `initializeWebSocketAudioStream`. -/
def initializeWebSocketAudioStream (w : World) (callId : String) (now : Nat) :
    Except JsError Unit × World :=
  match mapGet w.bridge.activeCalls callId with
  | none => (.ok (), w)
  | some callSession =>
    let initMessage : Message :=
      { type := "audio_stream_init"
        callId := some callId
        audioConfig := some
          { sampleRate := w.bridge.sampleRate
            channels := w.bridge.channels
            bitDepth := w.bridge.bitDepth
            format := "pcm" }
        timestamp := now }
    sendVia w callSession.websocketClient initMessage

/-- Method `startAudioStream`. -/
def startAudioStream (w : World) (callId : String) (uuid : String) (now : Nat) :
    Except JsError Unit × World :=
  match mapGet w.bridge.activeCalls callId with
  | none => (.error (.sessionNotFound callId), w)
  | some callSession =>
    let callSession1 : CallSession :=
      { callSession with
        audioStream := some { id := uuid, startTime := now, bytesProcessed := 0 } }
    initializeWebSocketAudioStream
      { w with
        bridge :=
          { w.bridge with
            activeCalls := mapSet w.bridge.activeCalls callId callSession1 } }
      callId now

/-- Method `convertAudioFormat`: the placeholder returns its argument. -/
def convertAudioFormat (audioData : List Nat) : List Nat :=
  audioData

/-- Method `processTeamsAudio`, for a byte buffer `audioData`, whose `length` is
the number of its bytes.  A request body of another shape, which
`handleTeamsAudio` hands on unchecked, has a `length` that need not be a
natural number; such a body is not covered by this definition. -/
def processTeamsAudio (w : World) (callId : String) (audioData : List Nat) (now : Nat) :
    Except JsError Unit × World :=
  match mapGet w.bridge.activeCalls callId with
  | none => (.ok (), w)
  | some callSession =>
    let processedAudio := convertAudioFormat audioData
    let audioMessage : Message :=
      { type := "audio_data"
        callId := some callId
        audioData := some processedAudio
        timestamp := now
        sequence := some (streamBytes callSession) }
    match sendVia w callSession.websocketClient audioMessage with
    | (.error e, w1) => (.error e, w1)
    | (.ok (), w1) =>
      match callSession.audioStream with
      | none => (.ok (), w1)
      | some a =>
        let callSession1 : CallSession :=
          { callSession with
            audioStream := some { a with bytesProcessed := a.bytesProcessed + audioData.length } }
        (.ok (),
          { w1 with
            bridge :=
              { w1.bridge with
                activeCalls := mapSet w1.bridge.activeCalls callId callSession1 } })

/-- Method `endCall`.  A failure of the send is caught and logged; the
statements after the send are then skipped. -/
def endCall (w : World) (callId : String) (now : Nat) : Except JsError Unit × World :=
  match mapGet w.bridge.activeCalls callId with
  | none => (.ok (), w)
  | some callSession =>
    let endMessage : Message :=
      { type := "audio_stream_end"
        callId := some callId
        timestamp := now
        duration := some ((now : Int) - (callSession.startTime : Int))
        bytesProcessed := some (streamBytes callSession) }
    match sendVia w callSession.websocketClient endMessage with
    | (.error _, w1) => (.ok (), w1)
    | (.ok (), w1) =>
      let callSession1 : CallSession := { callSession with isActive := false }
      (.ok (),
        { w1 with
          bridge :=
            { w1.bridge with
              activeCalls :=
                mapDelete (mapSet w1.bridge.activeCalls callId callSession1) callId
              audioBuffers := mapDelete w1.bridge.audioBuffers callId } })

/-- Method `getActiveCalls`. -/
def getActiveCalls (w : World) : List String :=
  mapKeys w.bridge.activeCalls

/-- Method `getCallStats`; `none` is the result `null`. -/
def getCallStats (w : World) (callId : String) (now : Nat) : Option CallStats :=
  match mapGet w.bridge.activeCalls callId with
  | none => none
  | some callSession =>
    some
      { id := callId
        startTime := callSession.startTime
        isActive := callSession.isActive
        duration := (now : Int) - (callSession.startTime : Int)
        bytesProcessed := streamBytes callSession }

/-! ## Concrete states used in the examples -/

/-- A client whose transport is open: the constructor state after `connect`
created the transport and the transport reported `open`. -/
def connectedClient : WebSocketClient :=
  WebSocketClient.onOpen { WebSocketClient.new with ws := some {}, connectionTimeout := true }

/-- A freshly built relay with one freshly built (not connected) client. -/
def freshWorld : World :=
  { bridge := {}, clients := [WebSocketClient.new] }

/-- A freshly built relay with one client whose transport is open. -/
def liveWorld : World :=
  { bridge := {}, clients := [connectedClient] }

/-- The state after `initializeCall`, `startAudioStream` and one ingress of
three bytes for the call `call_1` on a connected channel. -/
def streamedWorld : World :=
  (processTeamsAudio
    (startAudioStream (initializeCall liveWorld "call_1" 0 10).2 "call_1" "stream-1" 11).2
    "call_1" [1, 2, 3] 12).2

/-- A client that counts as connected while its transport refuses to send. -/
def brokenClient : WebSocketClient :=
  { connectedClient with ws := some { sendThrows := true } }

/-- The frames written so far to the transport of the client `ref`. -/
def framesWritten (w : World) (ref : ClientRef) : List Message :=
  match w.clients[ref]? with
  | none => []
  | some c =>
    match c.ws with
    | none => []
    | some t => t.written

/-- The state after `initializeCall` and `startAudioStream` for `call_1` on a
connected channel. -/
def readyWorld : World :=
  (startAudioStream (initializeCall liveWorld "call_1" 0 10).2 "call_1" "stream-1" 11).2

/-- The scenario of one call on a connected channel: `initializeCall`,
`startAudioStream`, then one ingress of a buffer of 100 bytes. -/
def scenario : Except JsError Unit × World :=
  processTeamsAudio readyWorld "call_1" (List.replicate 100 0) 12

/-- The state after `initializeCall` and `startAudioStream` for `call_1` while
the channel is not connected: the stream record is set, the send was refused. -/
def stalledWorld : World :=
  (startAudioStream (initializeCall freshWorld "call_1" 0 10).2 "call_1" "stream-1" 11).2

/-! ## Further operations of the relay -/

/-- The expression `parseInt(value) || fallback` of the constructor, on the
result of `parseInt`: `none` stands for `NaN` (variable unset or not a
number), and 0 is falsy like `NaN`.  Negative results are not modelled. -/
def parseIntOr (parsed : Option Nat) (fallback : Nat) : Nat :=
  match parsed with
  | none => fallback
  | some 0 => fallback
  | some (n + 1) => n + 1

/-- The constructor of `AudioBridge`; the arguments are the results of
`parseInt` on the three environment variables. -/
def AudioBridge.new (sampleRate channels bitDepth : Option Nat) : AudioBridge :=
  { activeCalls := []
    audioBuffers := []
    sampleRate := parseIntOr sampleRate 16000
    channels := parseIntOr channels 1
    bitDepth := parseIntOr bitDepth 16 }

/-- Method `convertToTeamsFormat`: the placeholder returns its argument. -/
def convertToTeamsFormat (audioData : List Nat) : List Nat :=
  audioData

/-- Method `sendAudioToTeams`: the placeholder only logs. -/
def sendAudioToTeams (w : World) (_callId : String) (_audioData : List Nat) :
    Except JsError Unit × World :=
  (.ok (), w)

/-- Method `handleWebSocketAudio`: an unknown call is logged and dropped; a
failure inside the `try` block is caught and logged. -/
def handleWebSocketAudio (w : World) (callId : String) (audioData : List Nat) :
    Except JsError Unit × World :=
  match mapGet w.bridge.activeCalls callId with
  | none => (.ok (), w)
  | some _ =>
    let teamsAudio := convertToTeamsFormat audioData
    match sendAudioToTeams w callId teamsAudio with
    | (.error _, w1) => (.ok (), w1)
    | (.ok (), w1) => (.ok (), w1)

/-- The answer written by `handleTeamsAudio` with `res.status(..).json(..)`. -/
structure HttpResponse where
  status : Nat
  error : Option String := none
  success : Option Bool := none
  bytesProcessed : Option Nat := none
  deriving DecidableEq, Repr

/-- The expression `a || b` on two optional strings: the empty string is falsy. -/
def orString (a b : Option String) : Option String :=
  match a with
  | none => b
  | some s => if s = "" then b else some s

/-- Method `handleTeamsAudio`.  `headerCallId` is `req.headers['x-call-id']`,
`queryCallId` is `req.query.callId`, `body` and `rawBody` are the request
bodies when they are byte buffers (a buffer is truthy even when empty). -/
def handleTeamsAudio (w : World) (headerCallId queryCallId : Option String)
    (body rawBody : Option (List Nat)) (now : Nat) : HttpResponse × World :=
  match orString headerCallId queryCallId with
  | none => ({ status := 400, error := some "Call ID is required" }, w)
  | some callId =>
    if callId = "" then
      ({ status := 400, error := some "Call ID is required" }, w)
    else
      match mapGet w.bridge.activeCalls callId with
      | none => ({ status := 404, error := some "Call session not found" }, w)
      | some _ =>
        match body.orElse (fun _ => rawBody) with
        | none => ({ status := 400, error := some "Audio data is required" }, w)
        | some audioData =>
          match processTeamsAudio w callId audioData now with
          | (.ok (), w1) =>
            ({ status := 200, success := some true,
               bytesProcessed := some audioData.length }, w1)
          | (.error _, w1) =>
            ({ status := 500, error := some "Internal server error" }, w1)

/-- A run of ingress calls for one call id, each with its buffer and its time,
in order; the run stops at the first call that fails. -/
def ingressAll (w : World) (callId : String) :
    List (List Nat × Nat) → Except JsError Unit × World
  | [] => (.ok (), w)
  | (audioData, now) :: rest =>
    match processTeamsAudio w callId audioData now with
    | (.error e, w1) => (.error e, w1)
    | (.ok (), w1) => ingressAll w1 callId rest

/-- The `audio_data` messages of a run of ingress calls that starts with the
counter at `start`: each carries the counter value reached before its call. -/
def sequenceFrames (callId : String) (start : Nat) : List (List Nat × Nat) → List Message
  | [] => []
  | (audioData, now) :: rest =>
    { type := "audio_data", callId := some callId, audioData := some audioData,
      timestamp := now, sequence := some start } ::
      sequenceFrames callId (start + audioData.length) rest

/-! ## Sequences of relay operations -/

/-- One step in the life of the relay: a call of one of its five operations,
or any change of the channel clients in between. -/
inductive RelayOp where
  | initializeCall (callId : String) (websocketClient : ClientRef) (now : Nat)
  | startAudioStream (callId : String) (uuid : String) (now : Nat)
  | processTeamsAudio (callId : String) (audioData : List Nat) (now : Nat)
  | handleWebSocketAudio (callId : String) (audioData : List Nat)
  | endCall (callId : String) (now : Nat)
  | channel (clients : List WebSocketClient)
  deriving DecidableEq, Repr

/-- The state after one step. -/
def applyOp (w : World) : RelayOp → World
  | .initializeCall callId websocketClient now => (initializeCall w callId websocketClient now).2
  | .startAudioStream callId uuid now => (startAudioStream w callId uuid now).2
  | .processTeamsAudio callId audioData now => (processTeamsAudio w callId audioData now).2
  | .handleWebSocketAudio callId audioData => (handleWebSocketAudio w callId audioData).2
  | .endCall callId now => (endCall w callId now).2
  | .channel clients => { w with clients := clients }

/-- The state after a sequence of steps, in order. -/
def runOps (w : World) (ops : List RelayOp) : World :=
  ops.foldl applyOp w

/-- The registry invariant: the keys are distinct, and every stored session
has the id of its key and is active. -/
def RegistryInv (w : World) : Prop :=
  MapWF w.bridge.activeCalls ∧
    ∀ e ∈ w.bridge.activeCalls, e.2.id = e.1 ∧ e.2.isActive = true

open WebSocketClient

/-! ## Lemmas on the `Map` operations -/

theorem mapGet_mapSet_self {V : Type} (m : List (String × V)) (k : String) (v : V) :
    mapGet (mapSet m k v) k = some v := by
  induction m with
  | nil => simp [mapSet, mapGet]
  | cons e rest ih =>
    obtain ⟨k', v'⟩ := e
    by_cases h : k' = k
    · simp [mapSet, mapGet, h]
    · simp [mapSet, mapGet, h, ih]

theorem mapGet_mapSet_other {V : Type} (m : List (String × V)) (k j : String) (v : V)
    (hne : j ≠ k) : mapGet (mapSet m k v) j = mapGet m j := by
  induction m with
  | nil =>
    have h : ¬ k = j := fun e => hne e.symm
    simp [mapSet, mapGet, h]
  | cons e rest ih =>
    obtain ⟨k', v'⟩ := e
    by_cases h : k' = k
    · have h2 : ¬ k = j := fun e => hne e.symm
      simp [mapSet, mapGet, h, h2]
    · by_cases h3 : k' = j
      · subst h3
        simp [mapSet, mapGet, h]
      · simp [mapSet, mapGet, h, h3, ih]

theorem mapGet_eq_none_iff {V : Type} (m : List (String × V)) (k : String) :
    mapGet m k = none ↔ k ∉ mapKeys m := by
  induction m with
  | nil => simp [mapGet, mapKeys]
  | cons e rest ih =>
    obtain ⟨k', v'⟩ := e
    by_cases h : k' = k
    · simp [mapGet, mapKeys, h]
    · have h2 : ¬ k = k' := fun e => h e.symm
      simp only [mapKeys] at ih
      simp [mapGet, mapKeys, h, h2, ih]

theorem mem_mapKeys_mapSet {V : Type} (m : List (String × V)) (k j : String) (v : V) :
    j ∈ mapKeys (mapSet m k v) ↔ j = k ∨ j ∈ mapKeys m := by
  induction m with
  | nil => simp [mapSet, mapKeys]
  | cons e rest ih =>
    obtain ⟨k', v'⟩ := e
    simp only [mapKeys] at ih
    by_cases h : k' = k
    · subst h
      simp [mapSet, mapKeys]
    · simp only [mapSet, mapKeys, h, if_false, List.map_cons, List.mem_cons, ih]
      tauto

theorem mapWF_mapSet {V : Type} (m : List (String × V)) (k : String) (v : V)
    (hwf : MapWF m) : MapWF (mapSet m k v) := by
  induction m with
  | nil => simp [mapSet, MapWF, mapKeys]
  | cons e rest ih =>
    obtain ⟨k', v'⟩ := e
    have hcons : k' ∉ mapKeys rest ∧ MapWF rest := by
      simpa [MapWF, mapKeys] using hwf
    by_cases h : k' = k
    · subst h
      simpa [mapSet, MapWF, mapKeys] using hwf
    · have hk : k' ∉ mapKeys (mapSet rest k v) := by
        rw [mem_mapKeys_mapSet]
        rintro (h1 | h1)
        · exact h h1
        · exact hcons.1 h1
      have ih2 : MapWF (mapSet rest k v) := ih hcons.2
      simp only [mapSet, h, if_false, MapWF, mapKeys, List.map_cons, List.nodup_cons]
      exact ⟨by simpa [mapKeys] using hk, by simpa [MapWF, mapKeys] using ih2⟩

theorem count_mapKeys_mapSet {V : Type} (m : List (String × V)) (k : String) (v : V)
    (hwf : MapWF m) : (mapKeys (mapSet m k v)).count k = 1 := by
  have hmem : k ∈ mapKeys (mapSet m k v) := (mem_mapKeys_mapSet m k k v).2 (Or.inl rfl)
  exact List.count_eq_one_of_mem (mapWF_mapSet m k v hwf) hmem

theorem mem_mapKeys_mapDelete {V : Type} (m : List (String × V)) (k j : String)
    (hwf : MapWF m) : j ∈ mapKeys (mapDelete m k) ↔ j ≠ k ∧ j ∈ mapKeys m := by
  induction m with
  | nil => simp [mapDelete, mapKeys]
  | cons e rest ih =>
    obtain ⟨k', v'⟩ := e
    have hcons : k' ∉ mapKeys rest ∧ MapWF rest := by
      simpa [MapWF, mapKeys] using hwf
    have ih2 := ih hcons.2
    simp only [mapKeys] at ih2 hcons
    by_cases h : k' = k
    · subst h
      simp only [mapDelete, if_true, mapKeys, List.map_cons, List.mem_cons]
      constructor
      · intro hj
        refine ⟨?_, Or.inr hj⟩
        rintro rfl
        exact hcons.1 hj
      · rintro ⟨h1, h2 | h2⟩
        · exact absurd h2 h1
        · exact h2
    · simp only [mapDelete, h, if_false, mapKeys, List.map_cons, List.mem_cons, ih2]
      constructor
      · rintro (h1 | ⟨h1, h2⟩)
        · subst h1
          exact ⟨h, Or.inl rfl⟩
        · exact ⟨h1, Or.inr h2⟩
      · rintro ⟨h1, h2 | h2⟩
        · exact Or.inl h2
        · exact Or.inr ⟨h1, h2⟩

theorem mapWF_mapDelete {V : Type} (m : List (String × V)) (k : String)
    (hwf : MapWF m) : MapWF (mapDelete m k) := by
  induction m with
  | nil => simp [mapDelete, MapWF, mapKeys]
  | cons e rest ih =>
    obtain ⟨k', v'⟩ := e
    have hcons : k' ∉ mapKeys rest ∧ MapWF rest := by
      simpa [MapWF, mapKeys] using hwf
    by_cases h : k' = k
    · simpa [mapDelete, h] using hcons.2
    · have hk : k' ∉ mapKeys (mapDelete rest k) := by
        rw [mem_mapKeys_mapDelete rest k k' hcons.2]
        exact fun hh => hcons.1 hh.2
      have ih2 : MapWF (mapDelete rest k) := ih hcons.2
      simp only [mapDelete, h, if_false, MapWF, mapKeys, List.map_cons, List.nodup_cons]
      exact ⟨by simpa [mapKeys] using hk, by simpa [MapWF, mapKeys] using ih2⟩

/-! ## The registry stays a `Map` -/

theorem sendVia_bridge (w : World) (ref : ClientRef) (message : Message) :
    (sendVia w ref message).2.bridge = w.bridge := by
  unfold sendVia
  split <;> rfl

theorem initializeCall_keeps_wf (w : World) (callId : String) (websocketClient : ClientRef)
    (now : Nat) (hwf : MapWF w.bridge.activeCalls) :
    MapWF (initializeCall w callId websocketClient now).2.bridge.activeCalls :=
  mapWF_mapSet _ _ _ hwf

theorem initializeWebSocketAudioStream_bridge (w : World) (callId : String) (now : Nat) :
    (initializeWebSocketAudioStream w callId now).2.bridge = w.bridge := by
  unfold initializeWebSocketAudioStream
  split
  · rfl
  · exact sendVia_bridge _ _ _

theorem startAudioStream_keeps_wf (w : World) (callId uuid : String) (now : Nat)
    (hwf : MapWF w.bridge.activeCalls) :
    MapWF (startAudioStream w callId uuid now).2.bridge.activeCalls := by
  unfold startAudioStream
  split
  · exact hwf
  · rw [initializeWebSocketAudioStream_bridge]
    exact mapWF_mapSet _ _ _ hwf

theorem processTeamsAudio_keeps_wf (w : World) (callId : String) (audioData : List Nat)
    (now : Nat) (hwf : MapWF w.bridge.activeCalls) :
    MapWF (processTeamsAudio w callId audioData now).2.bridge.activeCalls := by
  unfold processTeamsAudio
  cases mapGet w.bridge.activeCalls callId with
  | none => exact hwf
  | some callSession =>
    dsimp only
    have hb := sendVia_bridge w callSession.websocketClient
      { type := "audio_data", callId := some callId,
        audioData := some (convertAudioFormat audioData), timestamp := now,
        sequence := some (streamBytes callSession) }
    rcases hsend : sendVia w callSession.websocketClient
      { type := "audio_data", callId := some callId,
        audioData := some (convertAudioFormat audioData), timestamp := now,
        sequence := some (streamBytes callSession) } with ⟨_ | _, w1⟩
    · rw [hsend] at hb
      simp only at hb ⊢
      rw [hb]
      exact hwf
    · rw [hsend] at hb
      simp only at hb
      cases callSession.audioStream with
      | none =>
        simp only
        rw [hb]
        exact hwf
      | some a =>
        simp only
        rw [hb]
        exact mapWF_mapSet _ _ _ hwf

theorem endCall_keeps_wf (w : World) (callId : String) (now : Nat)
    (hwf : MapWF w.bridge.activeCalls) :
    MapWF (endCall w callId now).2.bridge.activeCalls := by
  unfold endCall
  cases mapGet w.bridge.activeCalls callId with
  | none => exact hwf
  | some callSession =>
    dsimp only
    have hb := sendVia_bridge w callSession.websocketClient
      { type := "audio_stream_end", callId := some callId, timestamp := now,
        duration := some ((now : Int) - (callSession.startTime : Int)),
        bytesProcessed := some (streamBytes callSession) }
    rcases hsend : sendVia w callSession.websocketClient
      { type := "audio_stream_end", callId := some callId, timestamp := now,
        duration := some ((now : Int) - (callSession.startTime : Int)),
        bytesProcessed := some (streamBytes callSession) } with ⟨_ | _, w1⟩
    · rw [hsend] at hb
      simp only at hb ⊢
      rw [hb]
      exact hwf
    · rw [hsend] at hb
      simp only at hb ⊢
      rw [hb]
      exact mapWF_mapDelete _ _ (mapWF_mapSet _ _ _ hwf)

/-! ## Session registration -/

/-- C1: in every relay state (the registry being a `Map`, so without repeated
keys) and for every call id, `initializeCall` completes and the list returned
by `getActiveCalls` right afterwards contains the id exactly once, whether or
not the id was registered before. -/
theorem initializeCall_listed_once (w : World) (callId : String)
    (websocketClient : ClientRef) (now : Nat) (hwf : MapWF w.bridge.activeCalls) :
    (initializeCall w callId websocketClient now).1 = .ok () ∧
      (getActiveCalls (initializeCall w callId websocketClient now).2).count callId = 1 := by
  refine ⟨rfl, ?_⟩
  simpa [initializeCall, getActiveCalls] using
    count_mapKeys_mapSet w.bridge.activeCalls callId _ hwf

/-- Instance of C1 on a state in which `call_1` is already registered. -/
theorem initializeCall_listed_once_witness :
    MapWF streamedWorld.bridge.activeCalls ∧
      (initializeCall streamedWorld "call_1" 0 20).1 = .ok () ∧
      (getActiveCalls (initializeCall streamedWorld "call_1" 0 20).2).count "call_1" = 1 :=
  ⟨by decide, initializeCall_listed_once streamedWorld "call_1" 0 20 (by decide)⟩

/-- C2, as stated, fails: on a state where `call_1` is registered with three
bytes processed since time 10, a second `initializeCall` for `call_1` completes
without error and the session is replaced (start time 20, zero bytes). -/
theorem initializeCall_twice_replaces :
    getCallStats streamedWorld "call_1" 20 =
        some { id := "call_1", startTime := 10, isActive := true, duration := 10,
               bytesProcessed := 3 } ∧
      (initializeCall streamedWorld "call_1" 0 20).1 = .ok () ∧
      getCallStats (initializeCall streamedWorld "call_1" 0 20).2 "call_1" 20 =
        some { id := "call_1", startTime := 20, isActive := true, duration := 0,
               bytesProcessed := 0 } ∧
      mapGet (initializeCall streamedWorld "call_1" 0 20).2.bridge.activeCalls "call_1" ≠
        mapGet streamedWorld.bridge.activeCalls "call_1" := by
  decide

/-- C2, amended: `initializeCall` never fails, also for an id that is already
registered; it stores a fresh session under the id (start time `now`, active,
no stream, so zero bytes processed), and leaves every other session as it was. -/
theorem initializeCall_overwrites (w : World) (callId : String)
    (websocketClient : ClientRef) (now : Nat) :
    (initializeCall w callId websocketClient now).1 = .ok () ∧
      mapGet (initializeCall w callId websocketClient now).2.bridge.activeCalls callId =
        some { id := callId, websocketClient := websocketClient, startTime := now,
               audioBuffer := [], isActive := true, audioStream := none } ∧
      (∀ t, getCallStats (initializeCall w callId websocketClient now).2 callId t =
        some { id := callId, startTime := now, isActive := true,
               duration := (t : Int) - (now : Int), bytesProcessed := 0 }) ∧
      (∀ other, other ≠ callId →
        mapGet (initializeCall w callId websocketClient now).2.bridge.activeCalls other =
          mapGet w.bridge.activeCalls other) := by
  refine ⟨rfl, ?_, ?_, ?_⟩
  · simp [initializeCall, mapGet_mapSet_self]
  · intro t
    simp [initializeCall, getCallStats, mapGet_mapSet_self, streamBytes]
  · intro other hne
    simp [initializeCall, mapGet_mapSet_other _ _ _ _ hne]

/-! ## Byte accounting and teardown -/

/-- C3 at the failing input: the calls of the test `should process audio data`
(`initializeCall`, then `processTeamsAudio` with a non-empty buffer).  With the
freshly built client of the test the ingress is rejected as not connected;
with a connected client it completes, and in both cases `bytesProcessed` read
by `getCallStats` is 0 and not the length of the buffer. -/
theorem processTeamsAudio_before_stream_counts_nothing :
    (processTeamsAudio (initializeCall freshWorld "test-call-789" 0 10).2
        "test-call-789" [116, 101, 115, 116] 11).1 = .error .notConnected ∧
      (processTeamsAudio (initializeCall liveWorld "test-call-789" 0 10).2
        "test-call-789" [116, 101, 115, 116] 11).1 = .ok () ∧
      getCallStats
        (processTeamsAudio (initializeCall liveWorld "test-call-789" 0 10).2
          "test-call-789" [116, 101, 115, 116] 11).2 "test-call-789" 12 =
        some { id := "test-call-789", startTime := 10, isActive := true, duration := 2,
               bytesProcessed := 0 } := by
  decide

/-- C4 at the failing input: `endCall` of a registered call whose channel is
not connected (or whose transport refuses to send) returns normally, and the
call is still listed by `getActiveCalls` and still has statistics. -/
theorem endCall_keeps_session_when_send_fails :
    (endCall (initializeCall freshWorld "call_1" 0 10).2 "call_1" 20).1 = .ok () ∧
      getActiveCalls (endCall (initializeCall freshWorld "call_1" 0 10).2 "call_1" 20).2 =
        ["call_1"] ∧
      getCallStats (endCall (initializeCall freshWorld "call_1" 0 10).2 "call_1" 20).2
          "call_1" 20 =
        some { id := "call_1", startTime := 10, isActive := true, duration := 10,
               bytesProcessed := 0 } ∧
      getActiveCalls
          (endCall (initializeCall { clients := [brokenClient] } "call_1" 0 10).2
            "call_1" 20).2 = ["call_1"] ∧
      getActiveCalls (endCall (initializeCall liveWorld "call_1" 0 10).2 "call_1" 20).2 =
        [] := by
  decide

/-- C5: `endCall` completes without raising, for every relay state, every heap
of clients (connected or not, sending or refusing to send) and every call id,
registered or not. -/
theorem endCall_never_raises (w : World) (callId : String) (now : Nat) :
    (endCall w callId now).1 = .ok () := by
  unfold endCall
  cases mapGet w.bridge.activeCalls callId with
  | none => rfl
  | some callSession =>
    dsimp only
    rcases sendVia w callSession.websocketClient _ with ⟨_ | _, w1⟩ <;> rfl

/-! ## Sending while the channel is down -/

theorem set_eq_self_of_getElem? {α : Type} (l : List α) (i : Nat) (a : α)
    (h : l[i]? = some a) : l.set i a = l := by
  induction l generalizing i with
  | nil => rfl
  | cons x rest ih =>
    cases i with
    | zero =>
      simp only [List.getElem?_cons_zero, Option.some.injEq] at h
      simp [h]
    | succ j =>
      simp only [List.getElem?_cons_succ] at h
      simp [ih j h]

/-- C6: `send` on a client that is not connected fails with the not-connected
error and returns the client as it was, its transport included; an ingress
call for a registered session whose client is not connected fails with that
error and leaves the whole state, the session counters included, as it was. -/
theorem send_not_connected (c : WebSocketClient) (message : Message) (w : World)
    (callId : String) (audioData : List Nat) (now : Nat) (callSession : CallSession)
    (hdown : c.isConnected = false)
    (hsession : mapGet w.bridge.activeCalls callId = some callSession)
    (hclient : w.clients[callSession.websocketClient]? = some c) :
    c.send message = (.error .notConnected, c) ∧
      processTeamsAudio w callId audioData now = (.error .notConnected, w) ∧
      getCallStats (processTeamsAudio w callId audioData now).2 callId now =
        getCallStats w callId now := by
  have hsend : ∀ m, c.send m = (.error .notConnected, c) := by
    intro m
    simp [WebSocketClient.send, hdown]
  have hingress : processTeamsAudio w callId audioData now = (.error .notConnected, w) := by
    simp [processTeamsAudio, hsession, sendVia, hclient, hsend,
      set_eq_self_of_getElem? _ _ _ hclient]
  exact ⟨hsend message, hingress, by rw [hingress]⟩

/-- Instance of C6: the session `call_1` with a started stream, on the freshly
built client, which is not connected. -/
theorem send_not_connected_witness :
    WebSocketClient.new.isConnected = false ∧
      mapGet stalledWorld.bridge.activeCalls "call_1" =
        some { id := "call_1", websocketClient := 0, startTime := 10,
               audioStream := some { id := "stream-1", startTime := 11, bytesProcessed := 0 } } ∧
      stalledWorld.clients[0]? = some WebSocketClient.new ∧
      WebSocketClient.new.send { type := "heartbeat", timestamp := 5 } =
        (.error .notConnected, WebSocketClient.new) ∧
      processTeamsAudio stalledWorld "call_1" [1, 2, 3] 12 =
        (.error .notConnected, stalledWorld) ∧
      getCallStats (processTeamsAudio stalledWorld "call_1" [1, 2, 3] 12).2 "call_1" 12 =
        getCallStats stalledWorld "call_1" 12 :=
  ⟨by decide, by decide, by decide,
    send_not_connected WebSocketClient.new { type := "heartbeat", timestamp := 5 }
      stalledWorld "call_1" [1, 2, 3] 12
      { id := "call_1", websocketClient := 0, startTime := 10,
        audioStream := some { id := "stream-1", startTime := 11, bytesProcessed := 0 } }
      (by decide) (by decide) (by decide)⟩

/-! ## Reconnect backoff -/

theorem handleReconnect_of_lt (c : WebSocketClient)
    (hlt : c.reconnectAttempts < c.maxReconnectAttempts) :
    handleReconnect c =
      { c with
        reconnectAttempts := c.reconnectAttempts + 1
        scheduled := c.scheduled ++
          [min (c.reconnectDelay * 2 ^ c.reconnectAttempts) c.maxReconnectDelay] } := by
  have h : ¬ c.reconnectAttempts ≥ c.maxReconnectAttempts := Nat.not_le.mpr hlt
  simp [handleReconnect, h]

theorem handleReconnect_of_ge (c : WebSocketClient)
    (hge : c.reconnectAttempts ≥ c.maxReconnectAttempts) :
    handleReconnect c =
      { c with emitted := c.emitted ++ [Emitted.maxReconnectAttemptsReached] } := by
  simp [handleReconnect, hge]

theorem iterate_handleReconnect_of_ge (k : Nat) (c : WebSocketClient)
    (hge : c.reconnectAttempts ≥ c.maxReconnectAttempts) :
    (Nat.iterate handleReconnect k c).scheduled = c.scheduled ∧
      (Nat.iterate handleReconnect k c).reconnectAttempts = c.reconnectAttempts ∧
      (Nat.iterate handleReconnect k c).maxReconnectAttempts = c.maxReconnectAttempts := by
  induction k generalizing c with
  | zero => exact ⟨rfl, rfl, rfl⟩
  | succ n ih =>
    rw [Function.iterate_succ_apply, handleReconnect_of_ge c hge]
    exact ih _ hge

theorem handleReconnect_attempts_le (c : WebSocketClient)
    (hle : c.reconnectAttempts ≤ c.maxReconnectAttempts) :
    (handleReconnect c).reconnectAttempts ≤ (handleReconnect c).maxReconnectAttempts := by
  by_cases h : c.reconnectAttempts ≥ c.maxReconnectAttempts
  · rw [handleReconnect_of_ge c h]
    exact hle
  · rw [handleReconnect_of_lt c (Nat.not_le.mp h)]
    exact Nat.not_le.mp h

theorem send_keeps_counters (c : WebSocketClient) (message : Message) :
    (c.send message).2.reconnectAttempts = c.reconnectAttempts ∧
      (c.send message).2.maxReconnectAttempts = c.maxReconnectAttempts := by
  unfold send
  split
  · exact ⟨rfl, rfl⟩
  · split
    · exact ⟨rfl, rfl⟩
    · split <;> exact ⟨rfl, rfl⟩

theorem step_attempts_le (c : WebSocketClient) (e : ClientEvent)
    (hle : c.reconnectAttempts ≤ c.maxReconnectAttempts) :
    (step c e).reconnectAttempts ≤ (step c e).maxReconnectAttempts := by
  cases e with
  | opened => exact Nat.zero_le _
  | closed => exact handleReconnect_attempts_le _ hle
  | reconnect => exact handleReconnect_attempts_le _ hle
  | send message =>
    obtain ⟨h1, h2⟩ := send_keeps_counters c message
    simp only [step, h1, h2]
    exact hle

theorem run_attempts_le (events : List ClientEvent) (c : WebSocketClient)
    (hle : c.reconnectAttempts ≤ c.maxReconnectAttempts) :
    (run c events).reconnectAttempts ≤ (run c events).maxReconnectAttempts := by
  induction events generalizing c with
  | nil => exact hle
  | cons e rest ih => exact ih (step c e) (step_attempts_le c e hle)

/-- C7: when attempts remain, `handleReconnect` increments the counter to `n`
and schedules the reconnect with delay `min (reconnectDelay * 2 ^ (n - 1))
maxReconnectDelay`; from the constructor state (base 1000, cap 30000) the
delays of the attempts 1 to 5 are 1000, 2000, 4000, 8000 and 16000. -/
theorem handleReconnect_delay (c : WebSocketClient) (n : Nat)
    (hn : n = c.reconnectAttempts + 1)
    (hlt : c.reconnectAttempts < c.maxReconnectAttempts) :
    (handleReconnect c).reconnectAttempts = n ∧
      (handleReconnect c).scheduled =
        c.scheduled ++ [min (c.reconnectDelay * 2 ^ (n - 1)) c.maxReconnectDelay] ∧
      (Nat.iterate handleReconnect 5 WebSocketClient.new).scheduled =
        [1000, 2000, 4000, 8000, 16000] := by
  subst hn
  rw [handleReconnect_of_lt c hlt]
  exact ⟨rfl, rfl, by decide⟩

/-- Instance of C7: the third attempt of a client built by the constructor. -/
theorem handleReconnect_delay_witness :
    3 = (Nat.iterate handleReconnect 2 WebSocketClient.new).reconnectAttempts + 1 ∧
      (Nat.iterate handleReconnect 2 WebSocketClient.new).reconnectAttempts <
        (Nat.iterate handleReconnect 2 WebSocketClient.new).maxReconnectAttempts ∧
      (handleReconnect (Nat.iterate handleReconnect 2 WebSocketClient.new)).reconnectAttempts
        = 3 ∧
      (handleReconnect (Nat.iterate handleReconnect 2 WebSocketClient.new)).scheduled =
        (Nat.iterate handleReconnect 2 WebSocketClient.new).scheduled ++
          [min ((Nat.iterate handleReconnect 2 WebSocketClient.new).reconnectDelay *
            2 ^ (3 - 1))
            (Nat.iterate handleReconnect 2 WebSocketClient.new).maxReconnectDelay] ∧
      (Nat.iterate handleReconnect 5 WebSocketClient.new).scheduled =
        [1000, 2000, 4000, 8000, 16000] :=
  ⟨by decide, by decide,
    handleReconnect_delay (Nat.iterate handleReconnect 2 WebSocketClient.new) 3
      (by decide) (by decide)⟩

/-- C8: once `reconnectAttempts` has reached `maxReconnectAttempts`,
`handleReconnect` only emits the max-attempts notification: nothing is
scheduled and the counter is not incremented.  Hence from the constructor
state any number `k` of consecutive calls schedules exactly the first `k` of the
five delays and never a sixth, and along every sequence of events the counter
stays at most `maxReconnectAttempts`. -/
theorem handleReconnect_exhausted (c : WebSocketClient)
    (hge : c.reconnectAttempts ≥ c.maxReconnectAttempts) :
    handleReconnect c =
        { c with emitted := c.emitted ++ [Emitted.maxReconnectAttemptsReached] } ∧
      (handleReconnect c).scheduled = c.scheduled ∧
      (handleReconnect c).reconnectAttempts = c.reconnectAttempts ∧
      (∀ k, (Nat.iterate handleReconnect k WebSocketClient.new).scheduled =
          List.take k [1000, 2000, 4000, 8000, 16000] ∧
        (Nat.iterate handleReconnect k WebSocketClient.new).reconnectAttempts ≤ 5) ∧
      (∀ (c0 : WebSocketClient) (events : List ClientEvent),
        c0.reconnectAttempts ≤ c0.maxReconnectAttempts →
          (run c0 events).reconnectAttempts ≤ (run c0 events).maxReconnectAttempts) := by
  refine ⟨handleReconnect_of_ge c hge, ?_, ?_, ?_, fun c0 events h => run_attempts_le events c0 h⟩
  · rw [handleReconnect_of_ge c hge]
  · rw [handleReconnect_of_ge c hge]
  · intro k
    by_cases hk : k ≤ 5
    · interval_cases k <;> exact ⟨by decide, by decide⟩
    · obtain ⟨j, rfl⟩ : ∃ j, k = j + 5 := ⟨k - 5, by omega⟩
      rw [Function.iterate_add_apply]
      have hfive : (Nat.iterate handleReconnect 5 WebSocketClient.new).reconnectAttempts ≥
          (Nat.iterate handleReconnect 5 WebSocketClient.new).maxReconnectAttempts := by
        decide
      obtain ⟨h1, h2, _⟩ := iterate_handleReconnect_of_ge j _ hfive
      rw [h1, h2]
      refine ⟨?_, by decide⟩
      have hlen : ([1000, 2000, 4000, 8000, 16000] : List Nat).length ≤ j + 5 := by
        simp
      rw [List.take_of_length_le hlen]
      decide

/-- Instance of C8: the client after five consecutive attempts from the
constructor state. -/
theorem handleReconnect_exhausted_witness :
    (Nat.iterate handleReconnect 5 WebSocketClient.new).reconnectAttempts ≥
        (Nat.iterate handleReconnect 5 WebSocketClient.new).maxReconnectAttempts ∧
      (handleReconnect (Nat.iterate handleReconnect 5 WebSocketClient.new)).scheduled =
        [1000, 2000, 4000, 8000, 16000] ∧
      (handleReconnect (Nat.iterate handleReconnect 5 WebSocketClient.new)).emitted =
        [Emitted.maxReconnectAttemptsReached] ∧
      (handleReconnect (Nat.iterate handleReconnect 5 WebSocketClient.new)).reconnectAttempts
        = 5 :=
  ⟨by decide,
    ((handleReconnect_exhausted (Nat.iterate handleReconnect 5 WebSocketClient.new)
      (by decide)).2.1).trans (by decide),
    by decide,
    ((handleReconnect_exhausted (Nat.iterate handleReconnect 5 WebSocketClient.new)
      (by decide)).2.2.1).trans (by decide)⟩

/-- C9: whatever the client state, the handler of the transport event `open`
sets `isConnected`, resets `reconnectAttempts` to 0 and `reconnectDelay` to
1000; a later `close`, and the `handleReconnect` it calls, then schedules the
reconnect with a delay of 1000 (attempts being allowed and the cap being at
least 1000, as with the constructor values 5 and 30000). -/
theorem onOpen_resets_backoff (c : WebSocketClient)
    (hmax : 0 < c.maxReconnectAttempts) (hcap : 1000 ≤ c.maxReconnectDelay) :
    (onOpen c).isConnected = true ∧
      (onOpen c).reconnectAttempts = 0 ∧
      (onOpen c).reconnectDelay = 1000 ∧
      (handleReconnect (onOpen c)).scheduled = c.scheduled ++ [1000] ∧
      (onClose (onOpen c)).scheduled = c.scheduled ++ [1000] ∧
      (onClose (onOpen c)).reconnectAttempts = 1 := by
  have hnot : ¬ (0 ≥ c.maxReconnectAttempts) := Nat.not_le.mpr hmax
  have hmin : min 1000 c.maxReconnectDelay = 1000 := Nat.min_eq_left hcap
  refine ⟨rfl, rfl, rfl, ?_, ?_, ?_⟩ <;>
    simp [onOpen, onClose, handleReconnect, hnot, hmin]

/-- Instance of C9: a client that had used up its five attempts. -/
theorem onOpen_resets_backoff_witness :
    0 < (Nat.iterate handleReconnect 5 WebSocketClient.new).maxReconnectAttempts ∧
      1000 ≤ (Nat.iterate handleReconnect 5 WebSocketClient.new).maxReconnectDelay ∧
      (onOpen (Nat.iterate handleReconnect 5 WebSocketClient.new)).reconnectAttempts = 0 ∧
      (onClose (onOpen (Nat.iterate handleReconnect 5 WebSocketClient.new))).scheduled =
        [1000, 2000, 4000, 8000, 16000, 1000] :=
  ⟨by decide, by decide,
    (onOpen_resets_backoff (Nat.iterate handleReconnect 5 WebSocketClient.new)
      (by decide) (by decide)).2.1,
    ((onOpen_resets_backoff (Nat.iterate handleReconnect 5 WebSocketClient.new)
      (by decide) (by decide)).2.2.2.2.1).trans (by decide)⟩

/-! ## The sequence field of an audio frame -/

/-- C10, as stated, fails: in the scenario the ingress of 100 bytes completes,
`bytesProcessed` becomes 100 and exactly one `audio_data` frame is written, but
its `sequence` field is 0, the value before the increment, and not 100. -/
theorem scenario_sequence_not_post_increment :
    scenario.1 = .ok () ∧
      (getCallStats scenario.2 "call_1" 12).map CallStats.bytesProcessed = some 100 ∧
      ((framesWritten scenario.2 0).filter (fun m => m.type = "audio_data")).map
          Message.sequence = [some 0] ∧
      ((framesWritten scenario.2 0).filter (fun m => m.type = "audio_data")).map
          Message.sequence ≠ [some 100] := by
  decide

/-- C10, amended: a successful ingress for a session with a started stream
writes exactly one more frame to the channel, an `audio_data` frame for the
call that carries the bytes and whose `sequence` field is `bytesProcessed` as
it was before the call; afterwards `bytesProcessed` is that value plus the
length of the buffer. -/
theorem processTeamsAudio_sequence_pre_increment (w : World) (callId : String)
    (audioData : List Nat) (now : Nat) (callSession : CallSession) (a : AudioStream)
    (c : WebSocketClient) (t : Transport)
    (hsession : mapGet w.bridge.activeCalls callId = some callSession)
    (hstream : callSession.audioStream = some a)
    (hclient : w.clients[callSession.websocketClient]? = some c)
    (hconn : c.isConnected = true) (hws : c.ws = some t) (hsend : t.sendThrows = false) :
    (processTeamsAudio w callId audioData now).1 = .ok () ∧
      framesWritten (processTeamsAudio w callId audioData now).2 callSession.websocketClient =
        framesWritten w callSession.websocketClient ++
          [{ type := "audio_data", callId := some callId, audioData := some audioData,
             timestamp := now, sequence := some a.bytesProcessed }] ∧
      (∀ later, (getCallStats (processTeamsAudio w callId audioData now).2 callId later).map
          CallStats.bytesProcessed = some (a.bytesProcessed + audioData.length)) := by
  have hlt : callSession.websocketClient < w.clients.length := by
    rcases Nat.lt_or_ge callSession.websocketClient w.clients.length with h | h
    · exact h
    · rw [List.getElem?_eq_none h] at hclient
      exact absurd hclient (by simp)
  have hrun : processTeamsAudio w callId audioData now =
      (.ok (),
        { bridge :=
            { w.bridge with
              activeCalls := mapSet w.bridge.activeCalls callId
                { callSession with
                  audioStream :=
                    some { a with bytesProcessed := a.bytesProcessed + audioData.length } } }
          clients := w.clients.set callSession.websocketClient
            { c with ws := some { t with written := t.written ++
              [{ type := "audio_data", callId := some callId, audioData := some audioData,
                 timestamp := now, sequence := some a.bytesProcessed }] } } }) := by
    simp [processTeamsAudio, hsession, sendVia, hclient, WebSocketClient.send, hconn, hws,
      hsend, hstream, streamBytes, convertAudioFormat]
  rw [hrun]
  refine ⟨rfl, ?_, ?_⟩
  · simp [framesWritten, hclient, hws, List.getElem?_set_self hlt]
  · intro later
    simp [getCallStats, mapGet_mapSet_self, streamBytes]

/-- Instance of C10 amended: the scenario, where the frame carries sequence 0
and `bytesProcessed` becomes 100. -/
theorem processTeamsAudio_sequence_pre_increment_witness :
    mapGet readyWorld.bridge.activeCalls "call_1" =
        some { id := "call_1", websocketClient := 0, startTime := 10,
               audioStream := some { id := "stream-1", startTime := 11, bytesProcessed := 0 } } ∧
      readyWorld.clients[0]? =
        some { connectedClient with
          ws := some { written :=
            [{ type := "audio_stream_init", callId := some "call_1",
               audioConfig := some { sampleRate := 16000, channels := 1, bitDepth := 16,
                                     format := "pcm" },
               timestamp := 11 }] } } ∧
      scenario.1 = .ok () ∧
      framesWritten scenario.2 0 =
        framesWritten readyWorld 0 ++
          [{ type := "audio_data", callId := some "call_1",
             audioData := some (List.replicate 100 0), timestamp := 12,
             sequence := some 0 }] ∧
      (∀ later, (getCallStats scenario.2 "call_1" later).map CallStats.bytesProcessed =
        some (0 + (List.replicate 100 0).length)) :=
  ⟨by decide, by decide,
    processTeamsAudio_sequence_pre_increment readyWorld "call_1" (List.replicate 100 0) 12
      { id := "call_1", websocketClient := 0, startTime := 10,
        audioStream := some { id := "stream-1", startTime := 11, bytesProcessed := 0 } }
      { id := "stream-1", startTime := 11, bytesProcessed := 0 }
      { connectedClient with
        ws := some { written :=
          [{ type := "audio_stream_init", callId := some "call_1",
             audioConfig := some { sampleRate := 16000, channels := 1, bitDepth := 16,
                                   format := "pcm" },
             timestamp := 11 }] } }
      { written :=
          [{ type := "audio_stream_init", callId := some "call_1",
             audioConfig := some { sampleRate := 16000, channels := 1, bitDepth := 16,
                                   format := "pcm" },
             timestamp := 11 }] }
      (by decide) rfl (by decide) rfl rfl rfl⟩

/-! ## Sequences of ingress calls -/

theorem getElem?_lt_length {α : Type} (l : List α) (i : Nat) (a : α)
    (h : l[i]? = some a) : i < l.length := by
  rcases Nat.lt_or_ge i l.length with hlt | hge
  · exact hlt
  · rw [List.getElem?_eq_none hge] at h
    exact absurd h (by simp)

theorem processTeamsAudio_ok_state (w : World) (callId : String) (audioData : List Nat)
    (now : Nat) (callSession : CallSession) (a : AudioStream) (c : WebSocketClient)
    (t : Transport)
    (hsession : mapGet w.bridge.activeCalls callId = some callSession)
    (hstream : callSession.audioStream = some a)
    (hclient : w.clients[callSession.websocketClient]? = some c)
    (hconn : c.isConnected = true) (hws : c.ws = some t) (hsend : t.sendThrows = false) :
    processTeamsAudio w callId audioData now =
      (.ok (),
        { bridge :=
            { w.bridge with
              activeCalls := mapSet w.bridge.activeCalls callId
                { callSession with
                  audioStream :=
                    some { a with bytesProcessed := a.bytesProcessed + audioData.length } } }
          clients := w.clients.set callSession.websocketClient
            { c with ws := some { t with written := t.written ++
              [{ type := "audio_data", callId := some callId, audioData := some audioData,
                 timestamp := now, sequence := some a.bytesProcessed }] } } }) := by
  simp [processTeamsAudio, hsession, sendVia, hclient, WebSocketClient.send, hconn, hws,
    hsend, hstream, streamBytes, convertAudioFormat]

theorem processTeamsAudio_error_bridge (w : World) (callId : String) (audioData : List Nat)
    (now : Nat) (e : JsError) (h : (processTeamsAudio w callId audioData now).1 = .error e) :
    (processTeamsAudio w callId audioData now).2.bridge = w.bridge := by
  unfold processTeamsAudio at h ⊢
  cases hget : mapGet w.bridge.activeCalls callId with
  | none => rfl
  | some callSession =>
    rw [hget] at h
    dsimp only at h ⊢
    have hb := sendVia_bridge w callSession.websocketClient
      { type := "audio_data", callId := some callId,
        audioData := some (convertAudioFormat audioData), timestamp := now,
        sequence := some (streamBytes callSession) }
    rcases hsend : sendVia w callSession.websocketClient
      { type := "audio_data", callId := some callId,
        audioData := some (convertAudioFormat audioData), timestamp := now,
        sequence := some (streamBytes callSession) } with ⟨_ | _, w1⟩
    · rw [hsend] at hb
      simpa using hb
    · rw [hsend] at h
      cases hs : callSession.audioStream with
      | none =>
        rw [hs] at h
        exact absurd h (by simp)
      | some a =>
        rw [hs] at h
        exact absurd h (by simp)

theorem ingressAll_frames (callId : String) (payloads : List (List Nat × Nat)) :
    ∀ (w : World) (ref : ClientRef) (callSession : CallSession) (a : AudioStream)
      (c : WebSocketClient) (t : Transport),
      mapGet w.bridge.activeCalls callId = some callSession →
      callSession.websocketClient = ref →
      callSession.audioStream = some a →
      w.clients[ref]? = some c →
      c.isConnected = true → c.ws = some t → t.sendThrows = false →
      (ingressAll w callId payloads).1 = .ok () ∧
        framesWritten (ingressAll w callId payloads).2 ref =
          framesWritten w ref ++ sequenceFrames callId a.bytesProcessed payloads ∧
        (mapGet (ingressAll w callId payloads).2.bridge.activeCalls callId).map streamBytes =
          some (a.bytesProcessed + (payloads.map (fun p => p.1.length)).sum) := by
  induction payloads with
  | nil =>
    intro w ref callSession a c t hsession _ hstream _ _ _ _
    simp [ingressAll, sequenceFrames, hsession, streamBytes, hstream]
  | cons p rest ih =>
    obtain ⟨audioData, now⟩ := p
    intro w ref callSession a c t hsession href hstream hclient hconn hws hsend
    subst href
    have hlt := getElem?_lt_length _ _ _ hclient
    have hrun := processTeamsAudio_ok_state w callId audioData now callSession a c t
      hsession hstream hclient hconn hws hsend
    have hstep := ih
      { bridge :=
          { w.bridge with
            activeCalls := mapSet w.bridge.activeCalls callId
              { callSession with
                audioStream :=
                  some { a with bytesProcessed := a.bytesProcessed + audioData.length } } }
        clients := w.clients.set callSession.websocketClient
          { c with ws := some { t with written := t.written ++
            [{ type := "audio_data", callId := some callId, audioData := some audioData,
               timestamp := now, sequence := some a.bytesProcessed }] } } }
      callSession.websocketClient
      { callSession with
        audioStream := some { a with bytesProcessed := a.bytesProcessed + audioData.length } }
      { a with bytesProcessed := a.bytesProcessed + audioData.length }
      { c with ws := some { t with written := t.written ++
        [{ type := "audio_data", callId := some callId, audioData := some audioData,
           timestamp := now, sequence := some a.bytesProcessed }] } }
      { t with written := t.written ++
        [{ type := "audio_data", callId := some callId, audioData := some audioData,
           timestamp := now, sequence := some a.bytesProcessed }] }
      (mapGet_mapSet_self _ _ _) rfl rfl (List.getElem?_set_self hlt) hconn rfl hsend
    simp only [ingressAll, hrun]
    refine ⟨hstep.1, ?_, ?_⟩
    · rw [hstep.2.1]
      simp [framesWritten, hclient, hws, List.getElem?_set_self hlt, sequenceFrames]
    · rw [hstep.2.2]
      simp [Nat.add_assoc]

theorem sequenceFrames_getElem? (callId : String) (payloads : List (List Nat × Nat)) :
    ∀ (start k : Nat) (audioData : List Nat) (now : Nat),
      payloads[k]? = some (audioData, now) →
      (sequenceFrames callId start payloads)[k]? =
        some { type := "audio_data", callId := some callId, audioData := some audioData,
               timestamp := now,
               sequence := some
                 (start + ((payloads.take k).map (fun p => p.1.length)).sum) } := by
  induction payloads with
  | nil =>
    intro start k audioData now h
    simp at h
  | cons p rest ih =>
    obtain ⟨d, n⟩ := p
    intro start k audioData now h
    cases k with
    | zero =>
      simp only [List.getElem?_cons_zero, Option.some.injEq, Prod.mk.injEq] at h
      obtain ⟨rfl, rfl⟩ := h
      simp [sequenceFrames]
    | succ j =>
      simp only [List.getElem?_cons_succ] at h
      simp [sequenceFrames, ih (start + d.length) j audioData now h, Nat.add_assoc]

theorem sequenceFrames_length (callId : String) (payloads : List (List Nat × Nat)) :
    ∀ start, (sequenceFrames callId start payloads).length = payloads.length := by
  induction payloads with
  | nil => intro start; rfl
  | cons p rest ih =>
    obtain ⟨d, n⟩ := p
    intro start
    simp [sequenceFrames, ih]

/-- C11: for a session with a started stream on a connected channel, every
call of a run of ingress calls succeeds; the run writes one `audio_data` frame
per call and nothing else, and the `sequence` field of the frame of call `k`
(counted from 0) is the counter at the start of the run plus the lengths of
the buffers of the calls before it, which is 0 for the first call after the
stream start.  The counter ends at the start value plus the sum of all buffer
lengths, and a call that fails leaves the relay state, the counter included,
as it was: the increment happens after the send only. -/
theorem ingress_sequence_is_bytes_before (w : World) (callId : String)
    (payloads : List (List Nat × Nat)) (callSession : CallSession) (a : AudioStream)
    (c : WebSocketClient) (t : Transport)
    (hsession : mapGet w.bridge.activeCalls callId = some callSession)
    (hstream : callSession.audioStream = some a)
    (hclient : w.clients[callSession.websocketClient]? = some c)
    (hconn : c.isConnected = true) (hws : c.ws = some t) (hsend : t.sendThrows = false) :
    (ingressAll w callId payloads).1 = .ok () ∧
      (framesWritten (ingressAll w callId payloads).2 callSession.websocketClient).length =
        (framesWritten w callSession.websocketClient).length + payloads.length ∧
      (∀ k audioData now, payloads[k]? = some (audioData, now) →
        (framesWritten (ingressAll w callId payloads).2 callSession.websocketClient)[
            (framesWritten w callSession.websocketClient).length + k]? =
          some { type := "audio_data", callId := some callId, audioData := some audioData,
                 timestamp := now,
                 sequence := some
                   (a.bytesProcessed + ((payloads.take k).map (fun p => p.1.length)).sum) }) ∧
      (∀ later, (getCallStats (ingressAll w callId payloads).2 callId later).map
          CallStats.bytesProcessed =
        some (a.bytesProcessed + (payloads.map (fun p => p.1.length)).sum)) ∧
      (∀ (w0 : World) (id : String) (audioData : List Nat) (now : Nat) (e : JsError),
        (processTeamsAudio w0 id audioData now).1 = .error e →
          (processTeamsAudio w0 id audioData now).2.bridge = w0.bridge) := by
  obtain ⟨hok, hframes, hbytes⟩ := ingressAll_frames callId payloads w
    callSession.websocketClient callSession a c t hsession rfl hstream hclient hconn hws hsend
  refine ⟨hok, ?_, ?_, ?_, processTeamsAudio_error_bridge⟩
  · rw [hframes, List.length_append, sequenceFrames_length]
  · intro k audioData now hk
    rw [hframes, List.getElem?_append_right (Nat.le_add_right _ _), Nat.add_sub_cancel_left]
    exact sequenceFrames_getElem? callId payloads a.bytesProcessed k audioData now hk
  · intro later
    cases hget : mapGet (ingressAll w callId payloads).2.bridge.activeCalls callId with
    | none =>
      rw [hget] at hbytes
      exact absurd hbytes (by simp)
    | some s =>
      rw [hget] at hbytes
      simpa [getCallStats, hget] using hbytes

/-- Instance of C11: two ingress calls, of three and of two bytes, right after
the stream start; the frames carry the sequence values 0 and 3 and the counter
ends at 5. -/
theorem ingress_sequence_is_bytes_before_witness :
    mapGet readyWorld.bridge.activeCalls "call_1" =
        some { id := "call_1", websocketClient := 0, startTime := 10,
               audioStream := some { id := "stream-1", startTime := 11, bytesProcessed := 0 } } ∧
      (ingressAll readyWorld "call_1" [([1, 2, 3], 12), ([4, 5], 13)]).1 = .ok () ∧
      (framesWritten (ingressAll readyWorld "call_1" [([1, 2, 3], 12), ([4, 5], 13)]).2 0)[1]? =
        some { type := "audio_data", callId := some "call_1", audioData := some [1, 2, 3],
               timestamp := 12, sequence := some 0 } ∧
      (framesWritten (ingressAll readyWorld "call_1" [([1, 2, 3], 12), ([4, 5], 13)]).2 0)[2]? =
        some { type := "audio_data", callId := some "call_1", audioData := some [4, 5],
               timestamp := 13, sequence := some 3 } ∧
      (getCallStats (ingressAll readyWorld "call_1" [([1, 2, 3], 12), ([4, 5], 13)]).2
          "call_1" 14).map CallStats.bytesProcessed = some 5 :=
  have h := ingress_sequence_is_bytes_before readyWorld "call_1"
    [([1, 2, 3], 12), ([4, 5], 13)]
    { id := "call_1", websocketClient := 0, startTime := 10,
      audioStream := some { id := "stream-1", startTime := 11, bytesProcessed := 0 } }
    { id := "stream-1", startTime := 11, bytesProcessed := 0 }
    { connectedClient with
      ws := some { written :=
        [{ type := "audio_stream_init", callId := some "call_1",
           audioConfig := some { sampleRate := 16000, channels := 1, bitDepth := 16,
                                 format := "pcm" },
           timestamp := 11 }] } }
    { written :=
        [{ type := "audio_stream_init", callId := some "call_1",
           audioConfig := some { sampleRate := 16000, channels := 1, bitDepth := 16,
                                 format := "pcm" },
           timestamp := 11 }] }
    (by decide) rfl (by decide) rfl rfl rfl
  ⟨by decide, h.1, h.2.2.1 0 [1, 2, 3] 12 rfl, h.2.2.1 1 [4, 5] 13 rfl, h.2.2.2.1 14⟩

/-! ## Starting a stream -/

/-- C12: for a call id without a session, `startAudioStream` fails with the
session-not-found error for that id and returns the state as it was, so that
nothing is written to any channel and the registry is unchanged. -/
theorem startAudioStream_unknown_call (w : World) (callId uuid : String) (now : Nat)
    (habsent : callId ∉ getActiveCalls w) :
    (startAudioStream w callId uuid now).1 = .error (.sessionNotFound callId) ∧
      (startAudioStream w callId uuid now).2 = w ∧
      (∀ ref, framesWritten (startAudioStream w callId uuid now).2 ref = framesWritten w ref) ∧
      (startAudioStream w callId uuid now).2.bridge.activeCalls = w.bridge.activeCalls := by
  have hnone : mapGet w.bridge.activeCalls callId = none :=
    (mapGet_eq_none_iff _ _).2 habsent
  have hrun : startAudioStream w callId uuid now = (.error (.sessionNotFound callId), w) := by
    simp [startAudioStream, hnone]
  rw [hrun]
  exact ⟨rfl, rfl, fun _ => rfl, rfl⟩

/-- Instance of C12: the id `ghost` on a relay whose only session is `call_1`. -/
theorem startAudioStream_unknown_call_witness :
    "ghost" ∉ getActiveCalls readyWorld ∧
      (startAudioStream readyWorld "ghost" "stream-2" 20).1 =
        .error (.sessionNotFound "ghost") ∧
      (startAudioStream readyWorld "ghost" "stream-2" 20).2 = readyWorld :=
  ⟨by decide,
    (startAudioStream_unknown_call readyWorld "ghost" "stream-2" 20 (by decide)).1,
    (startAudioStream_unknown_call readyWorld "ghost" "stream-2" 20 (by decide)).2.1⟩

/-- C13, as stated, fails: `startAudioStream` for `call_1` on a connected
channel writes exactly one frame, and its type is `audio_stream_init`, not
`init`. -/
theorem startAudioStream_type_not_init :
    (startAudioStream (initializeCall liveWorld "call_1" 0 10).2 "call_1" "stream-1" 11).1 =
        .ok () ∧
      (framesWritten
          (startAudioStream (initializeCall liveWorld "call_1" 0 10).2 "call_1" "stream-1" 11).2
          0).map Message.type = ["audio_stream_init"] ∧
      (framesWritten
          (startAudioStream (initializeCall liveWorld "call_1" 0 10).2 "call_1" "stream-1" 11).2
          0).map Message.type ≠ ["init"] := by
  decide

/-- C13, amended: for a registered call whose channel is connected,
`startAudioStream` completes and writes exactly one more frame, of type
`audio_stream_init`, with the call id and the `audioConfig` made of the sample
rate, channels and bit depth of the relay and the format `pcm`; a relay built
without configuration has 16000, 1 and 16. -/
theorem startAudioStream_sends_init (w : World) (callId uuid : String) (now : Nat)
    (callSession : CallSession) (c : WebSocketClient) (t : Transport)
    (hsession : mapGet w.bridge.activeCalls callId = some callSession)
    (hclient : w.clients[callSession.websocketClient]? = some c)
    (hconn : c.isConnected = true) (hws : c.ws = some t) (hsend : t.sendThrows = false) :
    (startAudioStream w callId uuid now).1 = .ok () ∧
      framesWritten (startAudioStream w callId uuid now).2 callSession.websocketClient =
        framesWritten w callSession.websocketClient ++
          [{ type := "audio_stream_init", callId := some callId,
             audioConfig := some
               { sampleRate := w.bridge.sampleRate, channels := w.bridge.channels,
                 bitDepth := w.bridge.bitDepth, format := "pcm" },
             timestamp := now }] ∧
      ((AudioBridge.new none none none).sampleRate = 16000 ∧
        (AudioBridge.new none none none).channels = 1 ∧
        (AudioBridge.new none none none).bitDepth = 16) := by
  have hlt := getElem?_lt_length _ _ _ hclient
  have hrun : startAudioStream w callId uuid now =
      (.ok (),
        { bridge :=
            { w.bridge with
              activeCalls := mapSet w.bridge.activeCalls callId
                { callSession with
                  audioStream := some { id := uuid, startTime := now, bytesProcessed := 0 } } }
          clients := w.clients.set callSession.websocketClient
            { c with ws := some { t with written := t.written ++
              [{ type := "audio_stream_init", callId := some callId,
                 audioConfig := some
                   { sampleRate := w.bridge.sampleRate, channels := w.bridge.channels,
                     bitDepth := w.bridge.bitDepth, format := "pcm" },
                 timestamp := now }] } } }) := by
    simp [startAudioStream, initializeWebSocketAudioStream, hsession, mapGet_mapSet_self,
      sendVia, hclient, WebSocketClient.send, hconn, hws, hsend]
  rw [hrun]
  refine ⟨rfl, ?_, rfl, rfl, rfl⟩
  simp [framesWritten, hclient, hws, List.getElem?_set_self hlt]

/-- Instance of C13 amended: the first stream start of `call_1`. -/
theorem startAudioStream_sends_init_witness :
    mapGet (initializeCall liveWorld "call_1" 0 10).2.bridge.activeCalls "call_1" =
        some { id := "call_1", websocketClient := 0, startTime := 10 } ∧
      (initializeCall liveWorld "call_1" 0 10).2.clients[0]? = some connectedClient ∧
      framesWritten
          (startAudioStream (initializeCall liveWorld "call_1" 0 10).2 "call_1" "stream-1" 11).2
          0 =
        [{ type := "audio_stream_init", callId := some "call_1",
           audioConfig := some { sampleRate := 16000, channels := 1, bitDepth := 16,
                                 format := "pcm" },
           timestamp := 11 }] :=
  ⟨by decide, by decide,
    (startAudioStream_sends_init (initializeCall liveWorld "call_1" 0 10).2 "call_1"
      "stream-1" 11 { id := "call_1", websocketClient := 0, startTime := 10 }
      connectedClient {} (by decide) (by decide) rfl rfl rfl).2.1⟩

/-! ## The byte counter over the operations of the relay -/

theorem mapGet_mapDelete_other {V : Type} (m : List (String × V)) (k j : String)
    (hne : j ≠ k) : mapGet (mapDelete m k) j = mapGet m j := by
  induction m with
  | nil => rfl
  | cons e rest ih =>
    obtain ⟨k', v'⟩ := e
    by_cases h : k' = k
    · subst h
      have h2 : ¬ k' = j := fun e => hne e.symm
      simp [mapDelete, mapGet, h2]
    · by_cases h3 : k' = j
      · subst h3
        simp [mapDelete, mapGet, h]
      · simp [mapDelete, mapGet, h, h3, ih]

theorem mapGet_mapDelete_self {V : Type} (m : List (String × V)) (k : String)
    (hwf : MapWF m) : mapGet (mapDelete m k) k = none := by
  rw [mapGet_eq_none_iff, mem_mapKeys_mapDelete m k k hwf]
  exact fun h => h.1 rfl

theorem getCallStats_bytes (w : World) (callId : String) (t : Nat) :
    (getCallStats w callId t).map CallStats.bytesProcessed =
      (mapGet w.bridge.activeCalls callId).map streamBytes := by
  unfold getCallStats
  cases mapGet w.bridge.activeCalls callId <;> rfl

theorem processTeamsAudio_activeCalls (w : World) (callId : String) (audioData : List Nat)
    (now : Nat) :
    (processTeamsAudio w callId audioData now).2.bridge.activeCalls = w.bridge.activeCalls ∨
      ∃ s a, mapGet w.bridge.activeCalls callId = some s ∧ s.audioStream = some a ∧
        (processTeamsAudio w callId audioData now).2.bridge.activeCalls =
          mapSet w.bridge.activeCalls callId
            { s with
              audioStream :=
                some { a with bytesProcessed := a.bytesProcessed + audioData.length } } := by
  unfold processTeamsAudio
  cases hget : mapGet w.bridge.activeCalls callId with
  | none => exact Or.inl rfl
  | some callSession =>
    dsimp only
    have hb := sendVia_bridge w callSession.websocketClient
      { type := "audio_data", callId := some callId,
        audioData := some (convertAudioFormat audioData), timestamp := now,
        sequence := some (streamBytes callSession) }
    rcases hsend : sendVia w callSession.websocketClient
      { type := "audio_data", callId := some callId,
        audioData := some (convertAudioFormat audioData), timestamp := now,
        sequence := some (streamBytes callSession) } with ⟨_ | _, w1⟩
    · rw [hsend] at hb
      simp only at hb ⊢
      rw [hb]
      exact Or.inl rfl
    · rw [hsend] at hb
      simp only at hb
      cases hs : callSession.audioStream with
      | none =>
        simp only
        rw [hb]
        exact Or.inl rfl
      | some a =>
        simp only
        rw [hb]
        exact Or.inr ⟨callSession, a, rfl, hs, rfl⟩

theorem endCall_activeCalls (w : World) (callId : String) (now : Nat) :
    (endCall w callId now).2.bridge.activeCalls = w.bridge.activeCalls ∨
      ∃ s, (endCall w callId now).2.bridge.activeCalls =
        mapDelete (mapSet w.bridge.activeCalls callId s) callId := by
  unfold endCall
  cases mapGet w.bridge.activeCalls callId with
  | none => exact Or.inl rfl
  | some callSession =>
    dsimp only
    have hb := sendVia_bridge w callSession.websocketClient
      { type := "audio_stream_end", callId := some callId, timestamp := now,
        duration := some ((now : Int) - (callSession.startTime : Int)),
        bytesProcessed := some (streamBytes callSession) }
    rcases hsend : sendVia w callSession.websocketClient
      { type := "audio_stream_end", callId := some callId, timestamp := now,
        duration := some ((now : Int) - (callSession.startTime : Int)),
        bytesProcessed := some (streamBytes callSession) } with ⟨_ | _, w1⟩
    · rw [hsend] at hb
      simp only at hb ⊢
      rw [hb]
      exact Or.inl rfl
    · rw [hsend] at hb
      simp only at hb ⊢
      rw [hb]
      exact Or.inr ⟨_, rfl⟩

theorem handleWebSocketAudio_state (w : World) (callId : String) (audioData : List Nat) :
    handleWebSocketAudio w callId audioData = (.ok (), w) := by
  unfold handleWebSocketAudio
  cases mapGet w.bridge.activeCalls callId <;> rfl

theorem startAudioStream_activeCalls (w : World) (callId uuid : String) (now : Nat)
    (s : CallSession) (hs : mapGet w.bridge.activeCalls callId = some s) :
    (startAudioStream w callId uuid now).2.bridge.activeCalls =
      mapSet w.bridge.activeCalls callId
        { s with audioStream := some { id := uuid, startTime := now, bytesProcessed := 0 } } := by
  unfold startAudioStream
  rw [hs]
  dsimp only
  rw [initializeWebSocketAudioStream_bridge]

/-- C14, as stated, fails: `call_1` has three bytes processed; a second
`startAudioStream` for it completes, the call stays registered, and
`bytesProcessed` read by `getCallStats` drops to 0. -/
theorem startAudioStream_resets_counter :
    (getCallStats streamedWorld "call_1" 20).map CallStats.bytesProcessed = some 3 ∧
      (startAudioStream streamedWorld "call_1" "stream-2" 20).1 = .ok () ∧
      "call_1" ∈ getActiveCalls (startAudioStream streamedWorld "call_1" "stream-2" 20).2 ∧
      (getCallStats (startAudioStream streamedWorld "call_1" "stream-2" 20).2 "call_1" 20).map
          CallStats.bytesProcessed = some 0 := by
  decide

/-- C14, amended: for a registered call with `bytesProcessed` equal to `b`, an
ingress call with a byte buffer and an egress call (for any call id) keep the
call registered with a counter of at least `b`, `endCall` (for any call id) leaves the counter
at least `b` if the call is still registered afterwards, and
`startAudioStream` for another call id leaves the counter at `b`; but
`startAudioStream` for the call itself sets the counter, which belongs to the
stream record, to 0. -/
theorem bytesProcessed_monotone_within_stream (w : World) (c : String) (b t : Nat)
    (hwf : MapWF w.bridge.activeCalls)
    (hb : (getCallStats w c t).map CallStats.bytesProcessed = some b) :
    (∀ callId audioData now, ∃ b1,
        (getCallStats (processTeamsAudio w callId audioData now).2 c t).map
          CallStats.bytesProcessed = some b1 ∧ b ≤ b1) ∧
      (∀ callId audioData,
        (getCallStats (handleWebSocketAudio w callId audioData).2 c t).map
          CallStats.bytesProcessed = some b) ∧
      (∀ callId now b1,
        (getCallStats (endCall w callId now).2 c t).map CallStats.bytesProcessed = some b1 →
          b ≤ b1) ∧
      (∀ callId uuid now, callId ≠ c →
        (getCallStats (startAudioStream w callId uuid now).2 c t).map
          CallStats.bytesProcessed = some b) ∧
      (∀ uuid now,
        (getCallStats (startAudioStream w c uuid now).2 c t).map CallStats.bytesProcessed =
          some 0) := by
  rw [getCallStats_bytes] at hb
  refine ⟨?_, ?_, ?_, ?_, ?_⟩
  · intro callId audioData now
    rw [getCallStats_bytes]
    rcases processTeamsAudio_activeCalls w callId audioData now with h | ⟨s, a, hs, ha, h⟩
    · rw [h]
      exact ⟨b, hb, Nat.le_refl b⟩
    · rw [h]
      by_cases hc : c = callId
      · subst hc
        rw [hs] at hb
        simp only [Option.map_some', Option.some.injEq, streamBytes, ha] at hb
        rw [mapGet_mapSet_self]
        exact ⟨a.bytesProcessed + audioData.length, by simp [streamBytes],
          by omega⟩
      · rw [mapGet_mapSet_other _ _ _ _ hc]
        exact ⟨b, hb, Nat.le_refl b⟩
  · intro callId audioData
    rw [handleWebSocketAudio_state, getCallStats_bytes]
    exact hb
  · intro callId now b1 h1
    rw [getCallStats_bytes] at h1
    rcases endCall_activeCalls w callId now with h | ⟨s, h⟩
    · rw [h, hb] at h1
      exact Nat.le_of_eq (Option.some.inj h1)
    · rw [h] at h1
      by_cases hc : c = callId
      · subst hc
        rw [mapGet_mapDelete_self _ _ (mapWF_mapSet _ _ _ hwf)] at h1
        exact absurd h1 (by simp)
      · rw [mapGet_mapDelete_other _ _ _ hc, mapGet_mapSet_other _ _ _ _ hc, hb] at h1
        exact Nat.le_of_eq (Option.some.inj h1)
  · intro callId uuid now hne
    rw [getCallStats_bytes]
    cases hs : mapGet w.bridge.activeCalls callId with
    | none =>
      have hrun : startAudioStream w callId uuid now = (.error (.sessionNotFound callId), w) := by
        simp [startAudioStream, hs]
      rw [hrun]
      exact hb
    | some s =>
      rw [startAudioStream_activeCalls w callId uuid now s hs,
        mapGet_mapSet_other _ _ _ _ (fun e => hne e.symm)]
      exact hb
  · intro uuid now
    rw [getCallStats_bytes]
    cases hs : mapGet w.bridge.activeCalls c with
    | none =>
      rw [hs] at hb
      exact absurd hb (by simp)
    | some s =>
      rw [startAudioStream_activeCalls w c uuid now s hs, mapGet_mapSet_self]
      rfl

/-- Instance of C14 amended: `call_1` with three bytes processed; one more
ingress of two bytes does not decrease the counter. -/
theorem bytesProcessed_monotone_within_stream_witness :
    MapWF streamedWorld.bridge.activeCalls ∧
      (getCallStats streamedWorld "call_1" 20).map CallStats.bytesProcessed = some 3 ∧
      (∃ b1,
        (getCallStats (processTeamsAudio streamedWorld "call_1" [7, 8] 13).2 "call_1" 20).map
          CallStats.bytesProcessed = some b1 ∧ 3 ≤ b1) ∧
      (getCallStats (startAudioStream streamedWorld "call_1" "stream-2" 14).2 "call_1" 20).map
          CallStats.bytesProcessed = some 0 :=
  ⟨by decide, by decide,
    (bytesProcessed_monotone_within_stream streamedWorld "call_1" 3 20 (by decide)
      (by decide)).1 "call_1" [7, 8] 13,
    (bytesProcessed_monotone_within_stream streamedWorld "call_1" 3 20 (by decide)
      (by decide)).2.2.2.2 "stream-2" 14⟩

/-! ## Ingress for an unknown call -/

/-- C15, as stated, fails: `processTeamsAudio` for the id `ghost`, which has
no session, completes normally instead of failing. -/
theorem processTeamsAudio_unknown_completes :
    "ghost" ∉ getActiveCalls liveWorld ∧
      (processTeamsAudio liveWorld "ghost" [1, 2, 3] 5).1 = .ok () ∧
      (processTeamsAudio liveWorld "ghost" [1, 2, 3] 5).1 ≠
        .error (.sessionNotFound "ghost") := by
  decide

/-- C15, amended: for a call id without a session, `processTeamsAudio` returns
normally and leaves the whole state, channels included, as it was; the missing
session is reported by the HTTP handler `handleTeamsAudio`, which answers 404
with `Call session not found` and does not touch the state either. -/
theorem processTeamsAudio_unknown_call (w : World) (callId : String)
    (audioData : List Nat) (now : Nat) (habsent : callId ∉ getActiveCalls w) :
    processTeamsAudio w callId audioData now = (.ok (), w) ∧
      (callId ≠ "" → ∀ queryCallId body rawBody,
        handleTeamsAudio w (some callId) queryCallId body rawBody now =
          ({ status := 404, error := some "Call session not found" }, w)) := by
  have hnone : mapGet w.bridge.activeCalls callId = none :=
    (mapGet_eq_none_iff _ _).2 habsent
  refine ⟨by simp [processTeamsAudio, hnone], ?_⟩
  intro hne queryCallId body rawBody
  simp [handleTeamsAudio, orString, hne, hnone]

/-- Instance of C15 amended: the id `ghost` on a relay without sessions. -/
theorem processTeamsAudio_unknown_call_witness :
    "ghost" ∉ getActiveCalls liveWorld ∧
      processTeamsAudio liveWorld "ghost" [1, 2, 3] 5 = (.ok (), liveWorld) ∧
      handleTeamsAudio liveWorld (some "ghost") none (some [1, 2, 3]) none 5 =
        ({ status := 404, error := some "Call session not found" }, liveWorld) :=
  ⟨by decide,
    (processTeamsAudio_unknown_call liveWorld "ghost" [1, 2, 3] 5 (by decide)).1,
    (processTeamsAudio_unknown_call liveWorld "ghost" [1, 2, 3] 5 (by decide)).2
      (by decide) none (some [1, 2, 3]) none⟩

/-! ## Dispatch of received frames -/

theorem handleMessage_eq_emit (c : WebSocketClient) (m : JsVal) (type : Option JsVal)
    (hm : messageType m = .ok type)
    (hlog : interpolate (loggedField m type) = .ok ()) :
    ∃ e, handleMessage c m = c.emit e ∧ e.payload = some m ∧
      e.channel =
        (if type = some (.str "audio_data") then "audioResponse"
         else if type = some (.str "status") then "status"
         else if type = some (.str "error") then "error"
         else if type = some (.str "heartbeat") then "heartbeat"
         else "message") ∧
      (type ≠ some (.str "error") → (c.emit e).1 = .ok ()) := by
  unfold handleMessage
  rw [hm]
  dsimp only
  by_cases h1 : type = some (.str "audio_data")
  · rw [loggedField, if_pos h1] at hlog
    refine ⟨.audioResponse m, ?_, rfl, by simp [h1, Emitted.channel], fun _ => rfl⟩
    rw [if_pos h1, handleAudioResponse, hlog]
  · by_cases h2 : type = some (.str "status")
    · rw [loggedField, if_neg h1, if_pos h2] at hlog
      refine ⟨.status m, ?_, rfl, by simp [h2, Emitted.channel], fun _ => rfl⟩
      rw [if_neg h1, if_pos h2, handleStatusMessage, hlog]
    · by_cases h3 : type = some (.str "error")
      · rw [loggedField, if_neg h1, if_neg h2, if_pos h3] at hlog
        refine ⟨.errorMessage m, ?_, rfl, by simp [h3, Emitted.channel],
          fun h => absurd h3 h⟩
        rw [if_neg h1, if_neg h2, if_pos h3, handleErrorMessage, hlog]
      · by_cases h4 : type = some (.str "heartbeat")
        · refine ⟨.heartbeat m, ?_, rfl, by simp [h4, Emitted.channel], fun _ => rfl⟩
          rw [if_neg h1, if_neg h2, if_neg h3, if_pos h4, handleHeartbeat]
        · rw [loggedField, if_neg h1, if_neg h2, if_neg h3, if_neg h4] at hlog
          refine ⟨.message m, ?_, rfl, by simp [h1, h2, h3, h4, Emitted.channel],
            fun _ => rfl⟩
          rw [if_neg h1, if_neg h2, if_neg h3, if_neg h4, hlog]

theorem emit_state (c : WebSocketClient) (e : Emitted) :
    (c.emit e).2 = { c with emitted := c.emitted ++ [e] } := by
  unfold emit
  cases e <;> simp only [] <;> split <;> rfl

/-- C16, as stated, fails: the decoded message with type `status` whose
`status` property is the object `{toString: null}` is not routed at all; the
log line of `handleStatusMessage` cannot convert that property to a string,
so `handleMessage` raises a type error before any `emit`. -/
theorem handleMessage_unprintable_status :
    messageType
        (.obj (.cons "type" (.str "status")
          (.cons "status" (.obj (.cons "toString" .null .nil)) .nil))) =
        .ok (some (.str "status")) ∧
      handleMessage WebSocketClient.new
        (.obj (.cons "type" (.str "status")
          (.cons "status" (.obj (.cons "toString" .null .nil)) .nil))) =
        (.error .typeError, WebSocketClient.new) ∧
      (handleMessage WebSocketClient.new
        (.obj (.cons "type" (.str "status")
          (.cons "status" (.obj (.cons "toString" .null .nil)) .nil)))).2.emitted = [] := by
  decide

/-- C16, amended: for every decoded message `m` on which `message.type` can be
read (every JSON value but `null`, objects in particular) and whose property
written to the log by the chosen handler converts to a string, `handleMessage`
makes exactly one `emit` call and changes nothing else; the call passes `m`
itself, on the channel `audioResponse` for the type `audio_data`, on `status`,
`error` and `heartbeat` for the types of these names, and on `message` for any
other or missing type.  The call returns normally, except on the channel
`error` when no listener for it is registered. -/
theorem handleMessage_routes_by_type (c : WebSocketClient) (m : JsVal)
    (type : Option JsVal) (hm : messageType m = .ok type)
    (hlog : interpolate (loggedField m type) = .ok ()) :
    ∃ e, (handleMessage c m).2 = { c with emitted := c.emitted ++ [e] } ∧
      e.payload = some m ∧
      e.channel =
        (if type = some (.str "audio_data") then "audioResponse"
         else if type = some (.str "status") then "status"
         else if type = some (.str "error") then "error"
         else if type = some (.str "heartbeat") then "heartbeat"
         else "message") ∧
      (type ≠ some (.str "error") → (handleMessage c m).1 = .ok ()) ∧
      (c.hasErrorListener = true → (handleMessage c m).1 = .ok ()) := by
  obtain ⟨e, he, hp, hc, hok⟩ := handleMessage_eq_emit c m type hm hlog
  refine ⟨e, ?_, hp, hc, ?_, ?_⟩
  · rw [he, emit_state]
  · intro h
    rw [he]
    exact hok h
  · intro hl
    rw [he]
    unfold emit
    cases e <;> simp [hl]

/-- Instance of C16 amended: a status message whose status is a string, and a
message of an unknown type. -/
theorem handleMessage_routes_by_type_witness :
    messageType (.obj (.cons "type" (.str "status") (.cons "status" (.str "ready") .nil))) =
        .ok (some (.str "status")) ∧
      interpolate
          (loggedField
            (.obj (.cons "type" (.str "status") (.cons "status" (.str "ready") .nil)))
            (some (.str "status"))) = .ok () ∧
      (∃ e, (handleMessage WebSocketClient.new
            (.obj (.cons "type" (.str "status") (.cons "status" (.str "ready") .nil)))).2 =
          { WebSocketClient.new with emitted := WebSocketClient.new.emitted ++ [e] } ∧
        e.payload =
          some (.obj (.cons "type" (.str "status") (.cons "status" (.str "ready") .nil))) ∧
        e.channel = "status") ∧
      (handleMessage WebSocketClient.new
          (.obj (.cons "type" (.str "bye") .nil))).2.emitted =
        [Emitted.message (.obj (.cons "type" (.str "bye") .nil))] :=
  ⟨rfl, by decide,
    (handleMessage_routes_by_type WebSocketClient.new
      (.obj (.cons "type" (.str "status") (.cons "status" (.str "ready") .nil)))
      (some (.str "status")) rfl (by decide)).imp
      (fun _ h => ⟨h.1, h.2.1, h.2.2.1.trans (by decide)⟩),
    by decide⟩

/-- C17: a frame whose JSON decode fails is handed, as it is, to
`handleAudioData`, which emits it on the channel `audioData`; this is the only
emission, nothing else in the client changes, and the handler returns
normally. -/
theorem onMessage_undecodable_frame (c : WebSocketClient) (data : Frame)
    (hfail : jsonParse data = none) :
    onMessage c data = (.ok (), { c with emitted := c.emitted ++ [Emitted.audioData data] }) ∧
      (Emitted.audioData data).channel = "audioData" ∧
      (Emitted.audioData data).payload = none := by
  refine ⟨?_, rfl, rfl⟩
  simp [onMessage, hfail, handleAudioData, emit]

/-- Instance of C17: a frame of three bytes that are not JSON text. -/
theorem onMessage_undecodable_frame_witness :
    jsonParse (Frame.raw [0, 255, 3]) = none ∧
      onMessage WebSocketClient.new (Frame.raw [0, 255, 3]) =
        (.ok (), { WebSocketClient.new with emitted := [Emitted.audioData (Frame.raw [0, 255, 3])] }) :=
  ⟨rfl, (onMessage_undecodable_frame WebSocketClient.new (Frame.raw [0, 255, 3]) rfl).1⟩

/-! ## Round trip of a message through the JSON text -/

theorem optField_toJSON (key : String) (value : Option JsVal) (rest : JsFields) :
    (optField key value rest).toJSON = optField key (value.map JsVal.toJSON) rest.toJSON := by
  cases value <;> simp [optField, JsFields.toJSON]

theorem audioConfig_toJSON (a : AudioConfig) : a.toJs.toJSON = a.toJs := by
  simp [AudioConfig.toJs, JsVal.toJSON, JsFields.toJSON]

theorem toJsWith_toJSON (m : Message) (audio : Option JsVal) :
    (m.toJsWith audio).toJSON = m.toJsWith (audio.map JsVal.toJSON) := by
  have hcall : (m.callId.map JsVal.str).map JsVal.toJSON = m.callId.map JsVal.str := by
    cases m.callId <;> simp [JsVal.toJSON]
  have hconfig : (m.audioConfig.map AudioConfig.toJs).map JsVal.toJSON =
      m.audioConfig.map AudioConfig.toJs := by
    cases m.audioConfig <;> simp [audioConfig_toJSON]
  have hseq : (m.sequence.map (fun n => JsVal.num n)).map JsVal.toJSON =
      m.sequence.map (fun n => JsVal.num n) := by
    cases m.sequence <;> simp [JsVal.toJSON]
  have hdur : (m.duration.map JsVal.num).map JsVal.toJSON = m.duration.map JsVal.num := by
    cases m.duration <;> simp [JsVal.toJSON]
  have hbytes : (m.bytesProcessed.map (fun n => JsVal.num n)).map JsVal.toJSON =
      m.bytesProcessed.map (fun n => JsVal.num n) := by
    cases m.bytesProcessed <;> simp [JsVal.toJSON]
  simp only [Message.toJsWith, JsVal.toJSON, JsFields.toJSON, optField_toJSON, hcall, hconfig,
    hseq, hdur, hbytes]

theorem jsonParse_wireText (m : Message) :
    jsonParse m.wireText = some (m.toJsWith (m.audioData.map bufferJSON)) := by
  simp only [Message.wireText, jsonStringify, jsonParse, Message.toJs, toJsWith_toJSON]
  cases m.audioData <;> simp [JsVal.toJSON]

theorem interpolate_loggedField_toJsWith (m : Message) (audio : Option JsVal) :
    interpolate (loggedField (m.toJsWith audio) (some (.str m.type))) = .ok () := by
  obtain ⟨type, callId, audioConfig, audioData, timestamp, sequence, duration,
    bytesProcessed⟩ := m
  have hcall : interpolate
      (fieldOf
        (Message.toJsWith
          { type := type, callId := callId, audioConfig := audioConfig,
            audioData := audioData, timestamp := timestamp, sequence := sequence,
            duration := duration, bytesProcessed := bytesProcessed } audio) "callId") =
      .ok () := by
    cases callId <;> cases audioConfig <;> cases audio <;> cases sequence <;>
      cases duration <;> cases bytesProcessed <;>
      simp [Message.toJsWith, fieldOf, JsFields.get?, optField, interpolate,
        JsVal.stringRaises]
  have hstatus : fieldOf
      (Message.toJsWith
        { type := type, callId := callId, audioConfig := audioConfig,
          audioData := audioData, timestamp := timestamp, sequence := sequence,
          duration := duration, bytesProcessed := bytesProcessed } audio) "status" = none := by
    cases callId <;> cases audioConfig <;> cases audio <;> cases sequence <;>
      cases duration <;> cases bytesProcessed <;>
      simp [Message.toJsWith, fieldOf, JsFields.get?, optField]
  have herror : fieldOf
      (Message.toJsWith
        { type := type, callId := callId, audioConfig := audioConfig,
          audioData := audioData, timestamp := timestamp, sequence := sequence,
          duration := duration, bytesProcessed := bytesProcessed } audio) "error" = none := by
    cases callId <;> cases audioConfig <;> cases audio <;> cases sequence <;>
      cases duration <;> cases bytesProcessed <;>
      simp [Message.toJsWith, fieldOf, JsFields.get?, optField]
  unfold loggedField
  split
  · exact hcall
  · split
    · rw [hstatus]
      rfl
    · split
      · rw [herror]
        rfl
      · split
        · rfl
        · simp [interpolate, JsVal.stringRaises]

theorem messageType_toJsWith (m : Message) (audio : Option JsVal) :
    messageType (m.toJsWith audio) = .ok (some (.str m.type)) := by
  simp [Message.toJsWith, messageType, JsFields.get?]

/-- C18, as stated, fails: the text written for an `audio_data` message whose
`audioData` is a buffer of three bytes does not decode to an equal message;
the decoded `audioData` is the object that `toJSON` makes of the buffer. -/
theorem roundtrip_changes_buffer :
    jsonParse (Message.wireText
        { type := "audio_data", callId := some "call_1", audioData := some [1, 2, 3],
          timestamp := 12, sequence := some 0 }) ≠
      some (Message.toJs
        { type := "audio_data", callId := some "call_1", audioData := some [1, 2, 3],
          timestamp := 12, sequence := some 0 }) ∧
      jsonParse (Message.wireText
        { type := "audio_data", callId := some "call_1", audioData := some [1, 2, 3],
          timestamp := 12, sequence := some 0 }) =
      some (.obj (.cons "type" (.str "audio_data")
        (.cons "callId" (.str "call_1")
          (.cons "audioData"
            (.obj (.cons "type" (.str "Buffer")
              (.cons "data" (.arr (.cons (.num 1) (.cons (.num 2) (.cons (.num 3) .nil))))
                .nil)))
            (.cons "timestamp" (.str "12") (.cons "sequence" (.num 0) .nil)))))) := by
  decide

/-- C18, amended: the text that `send` writes for a message object decodes to
the same object with every field unchanged except `audioData`, a buffer, which
comes back as the object `{type: "Buffer", data: [...]}` of its byte values;
so a message without `audioData` (the initialization, end and heartbeat
messages) decodes to an equal object.  The message handler passes on the
decoded object as its first emission. -/
theorem roundtrip_up_to_buffer (m : Message) (c : WebSocketClient) :
    jsonParse m.wireText = some (m.toJsWith (m.audioData.map bufferJSON)) ∧
      (m.audioData = none → jsonParse m.wireText = some m.toJs) ∧
      (∃ e rest, (onMessage c m.wireText).2.emitted = c.emitted ++ e :: rest ∧
        e.payload = some (m.toJsWith (m.audioData.map bufferJSON))) := by
  refine ⟨jsonParse_wireText m, ?_, ?_⟩
  · intro hnone
    rw [jsonParse_wireText, Message.toJs, hnone]
    rfl
  · obtain ⟨e, he, hp, _, _⟩ := handleMessage_eq_emit c
      (m.toJsWith (m.audioData.map bufferJSON)) (some (.str m.type))
      (messageType_toJsWith m _) (interpolate_loggedField_toJsWith m _)
    unfold onMessage
    rw [jsonParse_wireText]
    dsimp only
    rw [he]
    have hstate := emit_state c e
    rcases hemit : c.emit e with ⟨_ | _, c1⟩
    · rw [hemit] at hstate
      simp only at hstate ⊢
      refine ⟨e, [Emitted.audioData m.wireText], ?_, hp⟩
      rw [handleAudioData, emit_state, hstate]
      simp
    · rw [hemit] at hstate
      simp only at hstate ⊢
      exact ⟨e, [], by rw [hstate], hp⟩

/-- Instance of C18 amended: the end message of a call, which has no
`audioData`. -/
theorem roundtrip_up_to_buffer_witness :
    (Message.audioData
        { type := "audio_stream_end", callId := some "call_1", timestamp := 20,
          duration := some 10, bytesProcessed := some 3 }) = none ∧
      jsonParse (Message.wireText
        { type := "audio_stream_end", callId := some "call_1", timestamp := 20,
          duration := some 10, bytesProcessed := some 3 }) =
      some (Message.toJs
        { type := "audio_stream_end", callId := some "call_1", timestamp := 20,
          duration := some 10, bytesProcessed := some 3 }) :=
  ⟨rfl,
    (roundtrip_up_to_buffer
      { type := "audio_stream_end", callId := some "call_1", timestamp := 20,
        duration := some 10, bytesProcessed := some 3 } WebSocketClient.new).2.1 rfl⟩

/-! ## Disconnecting and connecting -/

/-- C19, as stated, fails: after `disconnect` on a connected client the close
event of the transport calls `handleReconnect`, which schedules a reconnect
after 1000 ms, and the timer then creates a new transport; likewise a
reconnect timer scheduled before `disconnect` still creates a new transport
when it fires afterwards. -/
theorem disconnect_not_terminal :
    (disconnect connectedClient).1 = .ok () ∧
      (onClose (disconnect connectedClient).2).scheduled = [1000] ∧
      (onReconnectTimer (onClose (disconnect connectedClient).2) (some {})).ws = some {} ∧
      (onReconnectTimer (onClose (disconnect connectedClient).2) (some {})).transportsCreated =
        connectedClient.transportsCreated + 1 ∧
      (onClose connectedClient).scheduled = [1000] ∧
      (disconnect (onClose connectedClient)).2.scheduled = [1000] ∧
      (onReconnectTimer (disconnect (onClose connectedClient)).2 (some {})).ws = some {} := by
  decide

/-- C19, amended: from every client state `disconnect` returns normally with
the heartbeat timer and the connect-timeout timer cleared, the transport
released (after `close(1000)` when there was one), `isConnected` false and
`disconnected` emitted; it leaves the reconnect counter and the reconnect
timers set by `handleReconnect` as they were. -/
theorem disconnect_effect (c : WebSocketClient) :
    (disconnect c).1 = .ok () ∧
      (disconnect c).2.heartbeatInterval = false ∧
      (disconnect c).2.connectionTimeout = false ∧
      (disconnect c).2.ws = none ∧
      (disconnect c).2.isConnected = false ∧
      (disconnect c).2.emitted = c.emitted ++ [Emitted.disconnected] ∧
      (disconnect c).2.closeCodes = (if c.ws = none then c.closeCodes else c.closeCodes ++ [1000]) ∧
      (disconnect c).2.scheduled = c.scheduled ∧
      (disconnect c).2.reconnectAttempts = c.reconnectAttempts := by
  unfold disconnect clearConnectionTimeout clearHeartbeat
  cases hh : c.heartbeatInterval <;> cases ht : c.connectionTimeout <;> cases hw : c.ws <;>
    simp [hh, ht, hw]

/-- C20, as stated, fails: a second `connect` while the first attempt is still
in flight (transport created, not yet open) creates a second transport and
starts a second connect-timeout timer. -/
theorem connect_in_flight_creates_second :
    (connect WebSocketClient.new (some {})).2.isConnected = false ∧
      (connect WebSocketClient.new (some {})).2.transportsCreated = 1 ∧
      (connect WebSocketClient.new (some {})).2.watchdogsStarted = 1 ∧
      (connect (connect WebSocketClient.new (some {})).2 (some {})).1 = .ok () ∧
      (connect (connect WebSocketClient.new (some {})).2 (some {})).2.transportsCreated = 2 ∧
      (connect (connect WebSocketClient.new (some {})).2 (some {})).2.watchdogsStarted = 2 := by
  decide

/-- C20, amended: `connect` on a connected client returns at once and creates
neither a transport nor a timer; on a client that is not connected, whether
or not an earlier attempt is in flight, it stores the new transport in the
place of the previous one and starts one more connect-timeout timer. -/
theorem connect_guard (c : WebSocketClient) (created : Option Transport) (t : Transport) :
    (c.isConnected = true → connect c created = (.ok (), c)) ∧
      (c.isConnected = false →
        connect c (some t) =
          (.ok (),
            { c with
              ws := some t
              transportsCreated := c.transportsCreated + 1
              connectionTimeout := true
              watchdogsStarted := c.watchdogsStarted + 1 })) := by
  constructor
  · intro h
    simp [connect, h]
  · intro h
    simp [connect, h, startConnectionTimeout]

/-- Instance of C20 amended: `connect` on the connected client, and on the
client built by the constructor. -/
theorem connect_guard_witness :
    connectedClient.isConnected = true ∧
      connect connectedClient (some {}) = (.ok (), connectedClient) ∧
      WebSocketClient.new.isConnected = false ∧
      (connect WebSocketClient.new (some {})).2.transportsCreated = 1 :=
  ⟨rfl, (connect_guard connectedClient (some {}) {}).1 rfl, rfl,
    (congrArg (fun r => r.2.transportsCreated)
      ((connect_guard WebSocketClient.new none {}).2 rfl)).trans rfl⟩

/-! ## The registry invariant -/

theorem mem_mapSet {V : Type} (m : List (String × V)) (k : String) (v : V)
    (e : String × V) (he : e ∈ mapSet m k v) : e = (k, v) ∨ e ∈ m := by
  induction m with
  | nil =>
    simp only [mapSet, List.mem_singleton] at he
    exact Or.inl he
  | cons x rest ih =>
    obtain ⟨k', v'⟩ := x
    by_cases h : k' = k
    · simp only [mapSet, h, if_true, List.mem_cons] at he
      rcases he with he | he
      · exact Or.inl he
      · exact Or.inr (List.mem_cons_of_mem _ he)
    · simp only [mapSet, h, if_false, List.mem_cons] at he
      rcases he with he | he
      · exact Or.inr (by rw [he]; exact List.mem_cons_self _ _)
      · rcases ih he with h1 | h1
        · exact Or.inl h1
        · exact Or.inr (List.mem_cons_of_mem _ h1)

theorem mem_mapDelete {V : Type} (m : List (String × V)) (k : String)
    (e : String × V) (he : e ∈ mapDelete m k) : e ∈ m := by
  induction m with
  | nil => simp [mapDelete] at he
  | cons x rest ih =>
    obtain ⟨k', v'⟩ := x
    by_cases h : k' = k
    · simp only [mapDelete, h, if_true] at he
      exact List.mem_cons_of_mem _ he
    · simp only [mapDelete, h, if_false, List.mem_cons] at he
      rcases he with he | he
      · rw [he]
        exact List.mem_cons_self _ _
      · exact List.mem_cons_of_mem _ (ih he)

theorem key_ne_of_mem_mapDelete {V : Type} (m : List (String × V)) (k : String)
    (e : String × V) (hwf : MapWF m) (he : e ∈ mapDelete m k) : e.1 ≠ k := by
  have hkey : e.1 ∈ mapKeys (mapDelete m k) := List.mem_map_of_mem Prod.fst he
  exact ((mem_mapKeys_mapDelete m k e.1 hwf).1 hkey).1

theorem mem_of_mapGet {V : Type} (m : List (String × V)) (k : String) (v : V)
    (h : mapGet m k = some v) : (k, v) ∈ m := by
  induction m with
  | nil => simp [mapGet] at h
  | cons x rest ih =>
    obtain ⟨k', v'⟩ := x
    by_cases hk : k' = k
    · simp only [mapGet, hk, if_true, Option.some.injEq] at h
      rw [hk, h]
      exact List.mem_cons_self _ _
    · simp only [mapGet, hk, if_false] at h
      exact List.mem_cons_of_mem _ (ih h)

theorem registryInv_mapSet (w : World) (callId : String) (s : CallSession)
    (hinv : RegistryInv w) (hid : s.id = callId) (hactive : s.isActive = true)
    (m : List (String × CallSession)) (hm : m = mapSet w.bridge.activeCalls callId s) :
    MapWF m ∧ ∀ e ∈ m, e.2.id = e.1 ∧ e.2.isActive = true := by
  subst hm
  refine ⟨mapWF_mapSet _ _ _ hinv.1, ?_⟩
  intro e he
  rcases mem_mapSet _ _ _ _ he with h | h
  · rw [h]
    exact ⟨hid, hactive⟩
  · exact hinv.2 e h

theorem applyOp_registryInv (w : World) (op : RelayOp) (hinv : RegistryInv w) :
    RegistryInv (applyOp w op) := by
  cases op with
  | initializeCall callId websocketClient now =>
    exact registryInv_mapSet w callId _ hinv rfl rfl _ rfl
  | startAudioStream callId uuid now =>
    cases hs : mapGet w.bridge.activeCalls callId with
    | none =>
      have hrun : startAudioStream w callId uuid now = (.error (.sessionNotFound callId), w) := by
        simp [startAudioStream, hs]
      simp only [applyOp, hrun]
      exact hinv
    | some s =>
      have hmem := hinv.2 _ (mem_of_mapGet _ _ _ hs)
      exact registryInv_mapSet w callId
        { s with audioStream := some { id := uuid, startTime := now, bytesProcessed := 0 } }
        hinv hmem.1 hmem.2 _ (startAudioStream_activeCalls w callId uuid now s hs)
  | processTeamsAudio callId audioData now =>
    rcases processTeamsAudio_activeCalls w callId audioData now with h | ⟨s, a, hs, _, h⟩
    · simp only [RegistryInv, applyOp, h]
      exact hinv
    · have hmem := hinv.2 _ (mem_of_mapGet _ _ _ hs)
      exact registryInv_mapSet w callId
        { s with
          audioStream :=
            some { a with bytesProcessed := a.bytesProcessed + audioData.length } }
        hinv hmem.1 hmem.2 _ h
  | handleWebSocketAudio callId audioData =>
    simp only [applyOp, handleWebSocketAudio_state]
    exact hinv
  | endCall callId now =>
    rcases endCall_activeCalls w callId now with h | ⟨s, h⟩
    · simp only [RegistryInv, applyOp, h]
      exact hinv
    · simp only [RegistryInv, applyOp, h]
      have hwf := mapWF_mapSet w.bridge.activeCalls callId s hinv.1
      refine ⟨mapWF_mapDelete _ _ hwf, ?_⟩
      intro e he
      have hne := key_ne_of_mem_mapDelete _ _ _ hwf he
      rcases mem_mapSet _ _ _ _ (mem_mapDelete _ _ _ he) with h1 | h1
      · rw [h1] at hne
        exact absurd rfl hne
      · exact hinv.2 e h1
  | channel clients => exact hinv

theorem runOps_registryInv (ops : List RelayOp) (w : World) (hinv : RegistryInv w) :
    RegistryInv (runOps w ops) := by
  induction ops generalizing w with
  | nil => exact hinv
  | cons op rest ih => exact ih (applyOp w op) (applyOp_registryInv w op hinv)

/-- C21: in every state reached from a freshly built relay by calls of
`initializeCall`, `startAudioStream`, `processTeamsAudio`,
`handleWebSocketAudio` and `endCall`, with any changes of the channel clients
in between, the keys of the registry are distinct and every stored session has
the id of its key and is active; so `getCallStats` of a registered call
reports that id and `isActive` true. -/
theorem registry_sessions_active (sampleRate channels bitDepth : Option Nat)
    (clients : List WebSocketClient) (ops : List RelayOp) :
    RegistryInv
        (runOps { bridge := AudioBridge.new sampleRate channels bitDepth, clients := clients }
          ops) ∧
      (∀ e ∈ (runOps
            { bridge := AudioBridge.new sampleRate channels bitDepth, clients := clients }
            ops).bridge.activeCalls,
        e.2.id = e.1 ∧ e.2.isActive = true) ∧
      (∀ c t stats,
        getCallStats
            (runOps
              { bridge := AudioBridge.new sampleRate channels bitDepth, clients := clients }
              ops) c t = some stats →
          stats.id = c ∧ stats.isActive = true) := by
  have hstart : RegistryInv
      { bridge := AudioBridge.new sampleRate channels bitDepth, clients := clients } := by
    refine ⟨?_, ?_⟩
    · simp [AudioBridge.new, MapWF, mapKeys]
    · intro e he
      simp [AudioBridge.new] at he
  have hinv := runOps_registryInv ops _ hstart
  refine ⟨hinv, hinv.2, ?_⟩
  intro c t stats hstats
  unfold getCallStats at hstats
  cases hs : mapGet (runOps
      { bridge := AudioBridge.new sampleRate channels bitDepth, clients := clients }
      ops).bridge.activeCalls c with
  | none =>
    rw [hs] at hstats
    exact absurd hstats (by simp)
  | some s =>
    rw [hs] at hstats
    simp only [Option.some.injEq] at hstats
    have hmem := hinv.2 _ (mem_of_mapGet _ _ _ hs)
    rw [← hstats]
    exact ⟨rfl, hmem.2⟩

/-! ## Construction and status of the client -/

/-- C22: the constructor fails, with the url-required error, exactly when the
channel URL is unset or empty; otherwise the new client holds that URL, is not
connected and has `reconnectAttempts` 0, and `getConnectionStatus` reports
`isConnected` false, the URL, 0 attempts and a maximum of 5, leaving the
client as it was. -/
theorem construct_requires_url (url protocol : Option String) :
    (construct url protocol = .error .urlRequired ↔ (url = none ∨ url = some "")) ∧
      ((∃ e, construct url protocol = .error e) ↔ (url = none ∨ url = some "")) ∧
      (∀ c, construct url protocol = .ok c →
        url = some c.url ∧ c.isConnected = false ∧ c.reconnectAttempts = 0 ∧
          getConnectionStatus c =
            ({ isConnected := false, url := c.url, reconnectAttempts := 0,
               maxReconnectAttempts := 5 }, c)) := by
  cases url with
  | none => simp [construct]
  | some u =>
    by_cases hu : u = ""
    · simp [construct, hu]
    · refine ⟨by simp [construct, hu], by simp [construct, hu], ?_⟩
      intro c hc
      simp only [construct, hu, if_false, Except.ok.injEq] at hc
      subst hc
      exact ⟨rfl, rfl, rfl, rfl⟩

/-! ## Connection errors -/

theorem handleConnectionError_fields (c : WebSocketClient) (error : JsError) :
    (handleConnectionError c error).2.isConnected = false ∧
      (handleConnectionError c error).2.heartbeatInterval = false ∧
      (handleConnectionError c error).2.connectionTimeout = false ∧
      (handleConnectionError c error).2.emitted = c.emitted ++ [Emitted.error error] ∧
      (handleConnectionError c error).2.scheduled = c.scheduled ∧
      (handleConnectionError c error).2.reconnectAttempts = c.reconnectAttempts ∧
      (handleConnectionError c error).2.maxReconnectAttempts = c.maxReconnectAttempts ∧
      (handleConnectionError c error).2.reconnectDelay = c.reconnectDelay ∧
      (handleConnectionError c error).2.maxReconnectDelay = c.maxReconnectDelay := by
  unfold handleConnectionError
  rw [emit_state]
  unfold clearConnectionTimeout clearHeartbeat
  cases hh : c.heartbeatInterval <;> cases ht : c.connectionTimeout <;> simp [hh, ht]

/-- C23, as stated, fails: on a client whose first connect attempt is in
flight, with all five attempts left, neither the error event of the transport
nor the firing of the connect-timeout timer schedules a reconnect or
increments `reconnectAttempts`. -/
theorem connection_error_schedules_nothing :
    (connect WebSocketClient.new (some {})).2.isConnected = false ∧
      (connect WebSocketClient.new (some {})).2.reconnectAttempts <
        (connect WebSocketClient.new (some {})).2.maxReconnectAttempts ∧
      (onError (connect WebSocketClient.new (some {})).2 .transportError).2.scheduled = [] ∧
      (onError (connect WebSocketClient.new (some {})).2 .transportError).2.reconnectAttempts
        = 0 ∧
      (onConnectionTimeout (connect WebSocketClient.new (some {})).2).2.scheduled = [] ∧
      (onConnectionTimeout (connect WebSocketClient.new (some {})).2).2.reconnectAttempts
        = 0 := by
  decide

/-- C23, amended: before the connection opens, the error event of the
transport and the firing of the connect-timeout timer both run
`handleConnectionError`, which marks the client not connected, clears the
heartbeat and connect-timeout timers and emits `error`, and which neither
schedules a reconnect nor changes `reconnectAttempts`.  The reconnect is
scheduled by the close event of the transport: after the error, a close
increments the counter and schedules the backoff delay when attempts remain,
and only emits the max-attempts notification when they are exhausted. -/
theorem connection_error_then_close (c : WebSocketClient) (error : JsError)
    (hdown : c.isConnected = false) :
    (onError c error).2.isConnected = false ∧
      (onError c error).2.heartbeatInterval = false ∧
      (onError c error).2.connectionTimeout = false ∧
      (onError c error).2.emitted = c.emitted ++ [Emitted.error error] ∧
      (onError c error).2.scheduled = c.scheduled ∧
      (onError c error).2.reconnectAttempts = c.reconnectAttempts ∧
      onConnectionTimeout c = onError c .connectionTimeout ∧
      (c.reconnectAttempts < c.maxReconnectAttempts →
        (onClose (onError c error).2).reconnectAttempts = c.reconnectAttempts + 1 ∧
          (onClose (onError c error).2).scheduled =
            c.scheduled ++
              [min (c.reconnectDelay * 2 ^ c.reconnectAttempts) c.maxReconnectDelay]) ∧
      (c.reconnectAttempts ≥ c.maxReconnectAttempts →
        (onClose (onError c error).2).reconnectAttempts = c.reconnectAttempts ∧
          (onClose (onError c error).2).scheduled = c.scheduled ∧
          (onClose (onError c error).2).emitted =
            c.emitted ++
              [Emitted.error error, Emitted.disconnected,
               Emitted.maxReconnectAttemptsReached]) := by
  obtain ⟨h1, h2, h3, h4, h5, h6, h7, h8, h9⟩ := handleConnectionError_fields c error
  refine ⟨h1, h2, h3, h4, h5, h6, ?_, ?_, ?_⟩
  · simp [onConnectionTimeout, onError, hdown]
  · intro hlt
    unfold onClose
    rw [handleReconnect_of_lt _ (by simpa [onError, h6, h7] using hlt)]
    simp [onError, h5, h6, h8, h9]
  · intro hge
    unfold onClose
    rw [handleReconnect_of_ge _ (by simpa [onError, h6, h7] using hge)]
    simp [onError, h4, h5, h6]

/-- Instance of C23 amended: the first connect attempt of a new client fails
with a transport error, and the close event that follows schedules the first
retry after 1000 ms. -/
theorem connection_error_then_close_witness :
    (connect WebSocketClient.new (some {})).2.isConnected = false ∧
      (connect WebSocketClient.new (some {})).2.reconnectAttempts <
        (connect WebSocketClient.new (some {})).2.maxReconnectAttempts ∧
      (onError (connect WebSocketClient.new (some {})).2 .transportError).2.scheduled = [] ∧
      (onClose (onError (connect WebSocketClient.new (some {})).2 .transportError).2).scheduled
        = [1000] ∧
      (onClose
        (onError (connect WebSocketClient.new (some {})).2 .transportError).2).reconnectAttempts
        = 1 :=
  ⟨by decide, by decide,
    (connection_error_then_close (connect WebSocketClient.new (some {})).2 .transportError
      (by decide)).2.2.2.2.1,
    ((connection_error_then_close (connect WebSocketClient.new (some {})).2 .transportError
      (by decide)).2.2.2.2.2.2.2.1 (by decide)).2,
    ((connection_error_then_close (connect WebSocketClient.new (some {})).2 .transportError
      (by decide)).2.2.2.2.2.2.2.1 (by decide)).1⟩

/-- C24 at the failing input: on the client built by the constructor, and on a
connected client, the call `isConnected()` raises a type error instead of
returning the flag, because the data property `isConnected` set by the
constructor hides the method of the same name; the health check, which makes
this call, fails with it. -/
theorem isConnected_call_raises :
    construct (some "ws://backend:9000") none =
        .ok { WebSocketClient.new with url := "ws://backend:9000" } ∧
      callIsConnected { WebSocketClient.new with url := "ws://backend:9000" } =
        .error .typeError ∧
      isConnectedMethod connectedClient = true ∧
      callIsConnected connectedClient = .error .typeError ∧
      healthWebsocketField connectedClient = .error .typeError ∧
      healthWebsocketField { WebSocketClient.new with url := "ws://backend:9000" } =
        .error .typeError := by
  decide

/-- C25 at the failing input: on the client built by the constructor, where no
listener for `error` is registered, `handleConnectionError` makes the state
changes (not connected, timers cleared, `reconnectAttempts` still 0) and then
raises the error out of `emit` instead of completing; with a listener
registered it completes. -/
theorem handleConnectionError_raises_without_listener :
    (handleConnectionError WebSocketClient.new .transportError).1 = .error .transportError ∧
      (handleConnectionError WebSocketClient.new .transportError).2.isConnected = false ∧
      (handleConnectionError WebSocketClient.new .transportError).2.heartbeatInterval = false ∧
      (handleConnectionError WebSocketClient.new .transportError).2.connectionTimeout = false ∧
      (handleConnectionError WebSocketClient.new .transportError).2.reconnectAttempts = 0 ∧
      (handleConnectionError connectedClient .transportError).1 = .error .transportError ∧
      (handleConnectionError { WebSocketClient.new with hasErrorListener := true }
        .transportError).1 = .ok () := by
  decide

/-- C26 at the failing inputs: the frame `null` is valid JSON, yet it is
emitted on `audioData` (and on no message channel), because reading its `type`
raises inside the `try` block; an error-type message received while no
listener for `error` is registered is emitted on `error` and then on
`audioData` as well.  A bare number is handled as a message only. -/
theorem json_frame_emitted_as_audio :
    jsonParse (Frame.text .null) = some .null ∧
      onMessage WebSocketClient.new (Frame.text .null) =
        (.ok (),
          { WebSocketClient.new with emitted := [Emitted.audioData (Frame.text .null)] }) ∧
      jsonParse (Frame.text (.obj (.cons "type" (.str "error")
          (.cons "error" (.str "overload") .nil)))) =
        some (.obj (.cons "type" (.str "error") (.cons "error" (.str "overload") .nil))) ∧
      (onMessage WebSocketClient.new
          (Frame.text (.obj (.cons "type" (.str "error")
            (.cons "error" (.str "overload") .nil))))).2.emitted =
        [Emitted.errorMessage
            (.obj (.cons "type" (.str "error") (.cons "error" (.str "overload") .nil))),
          Emitted.audioData
            (Frame.text (.obj (.cons "type" (.str "error")
              (.cons "error" (.str "overload") .nil))))] ∧
      (onMessage WebSocketClient.new (Frame.text (.num 5))).2.emitted =
        [Emitted.message (.num 5)] := by
  decide

end TeamsSpeech
